import Mathlib

/-!
# Verification of the chart-candidate normalization engine

A shallow embedding, in Lean 4, of the chart-validation / metric-resolution /
query-context code of the `superset-dashboard-generator` repository:

* `app/services/chart_generator/validators/chart_validator.py`
* `app/services/chart_generator/builders/metric_builder.py`
* `app/services/chart_generator/builders/query_context_builder.py`
* `app/services/chart_generator/constants.py`

Python values flowing through these functions are JSON-like dictionaries; we
model them with the inductive type `JVal`, and Python `dict`s (which preserve
insertion order, update a key in place and append new keys at the end) with
ordered association lists `List (String × JVal)` together with the access
functions `dget` / `dset` / `derase` below.

Modelling conventions, stated once here:

* Logging calls (`logger.info` / `logger.warning`) are modelled as no-ops.
  A `len(...)` inside a log format string can raise on a malformed metric
  bag; dropping it makes the model total where the source raises, i.e. an
  over-approximation of the set of produced outputs, which is conservative
  for the universally-quantified output claims proved below.
* The `md5(label + time)`-based `optionName` of `build_metric_object` and
  Python's builtin `hash` (used for a fallback column id) are abstracted by
  the deterministic functions `optionNameFor` and `pyHashMod`; no claim
  refers to the concrete hash values.
* Exceptions that the source can raise inside the `try:` body of
  `validate_ai_response` are modelled with `Except String`; the error paths
  kept in the model are the ones reachable from well-typed dictionaries
  (iterating a non-list `adhoc_filters`, a non-dict filter item).  A few
  exotic raise paths on ill-typed values (e.g. calling `.upper()` on a
  non-string aggregate) are modelled as returning a degraded value instead;
  each such spot is marked with a comment.
-/

/-- JSON-like Python value. `jrat` stands for Python floats appearing in the
constant tables (`0.8`, `0.2`, …); no claim computes with them. -/
inductive JVal where
  | jnull
  | jbool (b : Bool)
  | jint (n : Int)
  | jrat (q : Rat)
  | jstr (s : String)
  | jlist (xs : List JVal)
  | jdict (es : List (String × JVal))
  deriving Repr

open JVal

/-- Ordered association list standing for a Python `dict`. -/
abbrev Params := List (String × JVal)

/-- `d.get(k)` on the underlying association list: first binding wins. -/
def dget (es : Params) (k : String) : Option JVal :=
  match es with
  | [] => none
  | (k', v) :: rest => if k' = k then some v else dget rest k

/-- `d[k] = v`: replace the first binding of `k` in place, else append at the
end — exactly Python's insertion-order semantics. -/
def dset (es : Params) (k : String) (v : JVal) : Params :=
  match es with
  | [] => [(k, v)]
  | (k', v') :: rest => if k' = k then (k, v) :: rest else (k', v') :: dset rest k v

/-- `del d[k]`. -/
def derase (es : Params) (k : String) : Params :=
  match es with
  | [] => []
  | (k', v') :: rest => if k' = k then rest else (k', v') :: derase rest k

/-- `k in d`. -/
def dhas (es : Params) (k : String) : Bool :=
  (dget es k).isSome

/- Python `==` between JSON-like values.  (Python's numeric cross-type
equalities `1 == True` etc. are not modelled; every comparison performed by
the embedded code is between strings, or between a string and a non-string.) -/
mutual
def jvalEqb : JVal → JVal → Bool
  | .jnull, .jnull => true
  | .jbool a, .jbool b => a == b
  | .jint a, .jint b => a == b
  | .jrat a, .jrat b => a == b
  | .jstr a, .jstr b => a == b
  | .jlist a, .jlist b => jvalListEqb a b
  | .jdict a, .jdict b => jvalDictEqb a b
  | _, _ => false
def jvalListEqb : List JVal → List JVal → Bool
  | [], [] => true
  | a :: as', b :: bs' => jvalEqb a b && jvalListEqb as' bs'
  | _, _ => false
def jvalDictEqb : Params → Params → Bool
  | [], [] => true
  | (ka, va) :: as', (kb, vb) :: bs' => ka == kb && jvalEqb va vb && jvalDictEqb as' bs'
  | _, _ => false
end

/-- Python truthiness. -/
def JVal.truthy : JVal → Bool
  | .jnull => false
  | .jbool b => b
  | .jint n => n != 0
  | .jrat q => q != 0
  | .jstr s => s ≠ ""
  | .jlist xs => !xs.isEmpty
  | .jdict es => !es.isEmpty

/-- `v.get(k)` for a JSON value known to be used as a dict; Python's
`dict.get` default `None`. -/
def jget (v : JVal) (k : String) : JVal :=
  match v with
  | .jdict es => (dget es k).getD .jnull
  | _ => .jnull

/-- `v.get(k, dflt)`. -/
def jgetD (v : JVal) (k : String) (dflt : JVal) : JVal :=
  match v with
  | .jdict es => (dget es k).getD dflt
  | _ => dflt

/-- `k in v` for a dict value. -/
def jhas (v : JVal) (k : String) : Bool :=
  match v with
  | .jdict es => dhas es k
  | _ => false

/- Python `str(...)` of a JSON-like value.  For lists/dicts the rendering
differs from Python's `repr` in quoting details; no claim depends on it. -/
mutual
def pyStr : JVal → String
  | .jnull => "None"
  | .jbool b => if b then "True" else "False"
  | .jint n => toString n
  | .jrat q => toString q.num ++ "." ++ toString q.den
  | .jstr s => s
  | .jlist xs => "[" ++ pyStrList xs ++ "]"
  | .jdict es => "\x7b" ++ pyStrDict es ++ "\x7d"
def pyStrList : List JVal → String
  | [] => ""
  | [x] => pyStr x
  | x :: rest => pyStr x ++ ", " ++ pyStrList rest
def pyStrDict : Params → String
  | [] => ""
  | [(k, v)] => k ++ ": " ++ pyStr v
  | (k, v) :: rest => k ++ ": " ++ pyStr v ++ ", " ++ pyStrDict rest
end

/-- The string content of a JSON value when it is a string, else a `str()`
rendering (the source would raise `AttributeError` on e.g. `int.lower()`;
modelled as a degraded value — marked at each use site). -/
def asStrD : JVal → String
  | .jstr s => s
  | v => pyStr v

/- `json.dumps` with Python's default separators `", "` and `": "`.
Escaping inside strings and float rendering are not modelled precisely;
no claim inspects the encoded text beyond whole-string equality on
escape-free inputs. -/
mutual
def pyJsonDumps : JVal → String
  | .jnull => "null"
  | .jbool b => if b then "true" else "false"
  | .jint n => toString n
  | .jrat q => toString q.num ++ "." ++ toString q.den
  | .jstr s => "\"" ++ s ++ "\""
  | .jlist xs => "[" ++ pyJsonDumpsList xs ++ "]"
  | .jdict es => "\x7b" ++ pyJsonDumpsDict es ++ "\x7d"
def pyJsonDumpsList : List JVal → String
  | [] => ""
  | [x] => pyJsonDumps x
  | x :: rest => pyJsonDumps x ++ ", " ++ pyJsonDumpsList rest
def pyJsonDumpsDict : Params → String
  | [] => ""
  | [(k, v)] => "\"" ++ k ++ "\": " ++ pyJsonDumps v
  | (k, v) :: rest => "\"" ++ k ++ "\": " ++ pyJsonDumps v ++ ", " ++ pyJsonDumpsDict rest
end

/-- Substring test: Python's `needle in hay` on strings. -/
def charsHaveSub (needle hay : List Char) : Bool :=
  match hay with
  | [] => needle.isEmpty
  | _ :: rest => needle.isPrefixOf hay || charsHaveSub needle rest

def strContainsSub (needle hay : String) : Bool :=
  charsHaveSub needle.toList hay.toList

/-- `str.lower()`, via `List Char` so that it reduces definitionally. -/
def strLower (s : String) : String := String.mk (s.toList.map Char.toLower)

/-- `str.upper()`. -/
def strUpper (s : String) : String := String.mk (s.toList.map Char.toUpper)

/-- `str.strip()`. -/
def strTrim (s : String) : String :=
  String.mk (((s.toList.dropWhile Char.isWhitespace).reverse.dropWhile Char.isWhitespace).reverse)

/-- `str.startswith(p)`. -/
def strStartsWith (s p : String) : Bool := p.toList.isPrefixOf s.toList

/-- Python `str.find`: index of the first occurrence, `-1` when absent. -/
def pyFindChar (s : String) (c : Char) : Int :=
  match s.toList.indexOf? c with
  | some i => Int.ofNat i
  | none => -1

/-- Python slice `l[start:stop]` index normalization. -/
def pySliceNorm (n : Nat) (i : Int) : Nat :=
  if i < 0 then (max 0 (Int.ofNat n + i)).toNat else min i.toNat n

/-- Python slice `s[start:stop]` on strings (character indices). -/
def pySlice (s : String) (start stop : Int) : String :=
  let l := s.toList
  let a := pySliceNorm l.length start
  let b := pySliceNorm l.length stop
  String.mk ((l.take b).drop a)

/-- `metric[metric.find("(")+1:metric.find(")")]` from `metric_builder.py`. -/
def parenSlice (s : String) : String :=
  pySlice s (pyFindChar s '(' + 1) (pyFindChar s ')')

/-! ## Dataset catalog (`dataset_selected`)

`dataset_selected` is a dict holding at least `id`, `table_name` and a
`columns` list of column dicts.  We embed it structurally; `none` in the
optional fields means the key is absent (so `.get` falls back to its
default), while a present key with value `None` is `some .jnull`. -/

structure Dataset where
  id? : Option JVal
  tableName? : Option JVal
  columns : List JVal

/-- `dataset_selected.get("id")`. -/
def Dataset.idVal (ds : Dataset) : JVal := ds.id?.getD .jnull

/-- `dataset_selected.get("table_name", "Unknown")`. -/
def Dataset.tableNameVal (ds : Dataset) : JVal := ds.tableName?.getD (.jstr "Unknown")

/-! ## `MetricBuilder` (`builders/metric_builder.py`) -/

/-- Stand-in for Python's builtin `hash(...) % 10000` used as a fallback
column id (`build_column_metadata`). Deterministic; its concrete values are
never inspected by a claim. -/
def pyHashMod (v : JVal) : Int :=
  (Int.ofNat ((pyStr v).toList.foldl (fun a c => a * 31 + c.toNat) 7)) % 10000

/-- Stand-in for the `md5(f"{label}_{int(time.time())}")`-derived
`optionName` of `build_metric_object`: an uninterpreted deterministic
function of the label. Its concrete value is never inspected by a claim. -/
def optionNameFor (label : String) : String :=
  "metric_" ++ label ++ "_" ++ toString (pyHashMod (.jstr label))

/-- `MetricBuilder.build_column_metadata` (metric_builder.py lines 151-183). -/
def buildColumnMetadata (columnInfo : JVal) : JVal :=
  let rawName := jget columnInfo "column_name"
  let columnName := if rawName.truthy then rawName else jgetD columnInfo "id" (.jstr "unknown_column")
  .jdict [
    ("advanced_data_type", .jnull),
    ("certification_details", .jnull),
    ("certified_by", .jnull),
    ("column_name", columnName),
    ("description", jget columnInfo "description"),
    ("expression", jget columnInfo "expression"),
    ("filterable", jgetD columnInfo "filterable" (.jbool true)),
    ("groupby", jgetD columnInfo "groupby" (.jbool true)),
    ("id", jgetD columnInfo "id" (.jint (pyHashMod (jgetD columnInfo "column_name" (.jstr ""))))),
    ("is_certified", .jbool false),
    ("is_dttm", jgetD columnInfo "is_dttm" (.jbool false)),
    ("python_date_format", jget columnInfo "python_date_format"),
    ("type", jgetD columnInfo "type" (.jstr "VARCHAR")),
    ("type_generic", jgetD columnInfo "type_generic" (.jint 1)),
    ("verbose_name", jget columnInfo "verbose_name"),
    ("warning_markdown", .jnull)]

/-- `MetricBuilder.build_metric_object` (metric_builder.py lines 122-149).
`aggregate.upper()` assumes a string; on a non-string the source raises,
modelled here as uppercasing its `str()` rendering. -/
def buildMetricObject (aggregate : JVal) (columnInfo : JVal) (label : JVal) : JVal :=
  .jdict [
    ("expressionType", .jstr "SIMPLE"),
    ("column", buildColumnMetadata columnInfo),
    ("aggregate", .jstr (strUpper (asStrD aggregate))),
    ("sqlExpression", .jnull),
    ("datasourceWarning", .jbool false),
    ("hasCustomLabel", .jbool false),
    ("label", label),
    ("optionName", .jstr (optionNameFor (pyStr label)))]

/-- Line 64: the raw-SQL fallback for an unrecognised metric string. -/
def strMetricFallback (s : String) : JVal :=
  .jdict [("expressionType", .jstr "SQL"), ("sqlExpression", .jstr s),
          ("label", .jstr (strUpper s))]

/-- Find the catalog column whose `column_name` equals the given value
(the `for col in columns: if col.get('column_name') == x` loops). -/
def findColumnByName (columns : List JVal) (name : JVal) : Option JVal :=
  columns.find? (fun col => jvalEqb (jget col "column_name") name)

/-- String-metric branch of `enhance_metric_with_column_metadata`
(metric_builder.py lines 33-64). -/
def enhanceStrMetric (s : String) (ds : Dataset) : JVal :=
  if strStartsWith s "count" then
    if strContainsSub "(" s && strContainsSub ")" s then
      let colMatch := parenSlice s
      if colMatch = "*" then
        match ds.columns with
        | col :: _ =>
            buildMetricObject (.jstr "COUNT") col
              (.jstr ("COUNT(" ++ pyStr (jgetD col "column_name" (.jstr "id")) ++ ")"))
        | [] => strMetricFallback s
      else
        match findColumnByName ds.columns (.jstr colMatch) with
        | some col => buildMetricObject (.jstr "COUNT") col (.jstr ("COUNT(" ++ colMatch ++ ")"))
        | none => strMetricFallback s
    else strMetricFallback s
  else if strStartsWith s "sum" then
    let colMatch := parenSlice s
    match findColumnByName ds.columns (.jstr colMatch) with
    | some col => buildMetricObject (.jstr "SUM") col (.jstr ("SUM(" ++ colMatch ++ ")"))
    | none => strMetricFallback s
  else if strStartsWith s "avg" then
    let colMatch := parenSlice s
    match findColumnByName ds.columns (.jstr colMatch) with
    | some col => buildMetricObject (.jstr "AVG") col (.jstr ("AVG(" ++ colMatch ++ ")"))
    | none => strMetricFallback s
  else strMetricFallback s

/-- Dict-metric branch without a proper `column` sub-dict
(metric_builder.py lines 90-112). -/
def enhanceDictNoColumn (es : Params) (ds : Dataset) : JVal :=
  if dhas es "aggregate" && !dhas es "sqlExpression" then
    let aggregate := (dget es "aggregate").getD (.jstr "COUNT")
    let label := (dget es "label").getD (.jstr (pyStr aggregate ++ "(*)"))
    -- `"(" in label` assumes a string label; on a non-string the source
    -- raises TypeError, modelled via the str() rendering.
    let labelS := asStrD label
    let viaLabel : Option JVal :=
      if strContainsSub "(" labelS && strContainsSub ")" labelS then
        let colMatch := parenSlice labelS
        if colMatch ≠ "*" then
          match findColumnByName ds.columns (.jstr colMatch) with
          | some col => some (buildMetricObject aggregate col label)
          | none => none
        else none
      else none
    match viaLabel with
    | some m => m
    | none =>
      match ds.columns with
      | col :: _ => buildMetricObject aggregate col label
      | [] => .jdict es
  else .jdict es

/-- Dict-metric branch with a dict `column`
(metric_builder.py lines 68-89). -/
def enhanceDictWithColumn (es : Params) (colEs : Params) (ds : Dataset) : JVal :=
  if !dhas es "expressionType" || !dhas es "optionName" then
    let aggregate := (dget es "aggregate").getD (.jstr "COUNT")
    let label := (dget es "label").getD (.jstr (pyStr aggregate ++ "(*)"))
    buildMetricObject aggregate (.jdict colEs) label
  else if dhas colEs "id" then .jdict es
  else
    let columnName := (dget colEs "column_name").getD (.jstr "")
    match findColumnByName ds.columns columnName with
    | some col => .jdict (dset es "column" (buildColumnMetadata col))
    | none => .jdict es

/-- `MetricBuilder.enhance_metric_with_column_metadata`
(metric_builder.py lines 17-120), value-level (object identity is treated
separately by `enhanceMetricRef` below). -/
def enhanceMetric (metric : JVal) (ds : Dataset) : JVal :=
  match metric with
  | .jstr s => enhanceStrMetric s ds
  | .jdict es =>
    (match dget es "column" with
     | some (.jdict colEs) => enhanceDictWithColumn es colEs ds
     | _ => enhanceDictNoColumn es ds)
  | _ =>
    -- lines 114-120: fallback default
    match ds.columns with
    | col :: _ =>
        buildMetricObject (.jstr "COUNT") col
          (.jstr ("COUNT(" ++ pyStr (jgetD col "column_name" (.jstr "id")) ++ ")"))
    | [] => .jdict [("expressionType", .jstr "SQL"), ("sqlExpression", .jstr "count(*)"),
                    ("label", .jstr "COUNT(*)")]

/-! ## `ChartValidator._validate_timeseries_params`
(chart_validator.py lines 211-374), decomposed into one definition per
numbered step of the source. -/

/-- Columns whose type contains `date` or whose `is_dttm` flag is truthy
(the `date_columns` comprehensions). -/
def dateTypedColumns (columns : List JVal) : List JVal :=
  columns.filter (fun col =>
    strContainsSub "date" (strLower (pyStr (jgetD col "type" (.jstr ""))))
    || (jgetD col "is_dttm" (.jbool false)).truthy)

/-- Columns whose name contains a date/time-like token
(the `date_named_cols` comprehensions).  `col.get('column_name','').lower()`
assumes a string; non-strings are rendered via `str()` (source raises). -/
def dateNamedColumns (columns : List JVal) : List JVal :=
  columns.filter (fun col =>
    ["date", "time", "created", "updated"].any (fun w =>
      strContainsSub w (strLower (asStrD (jgetD col "column_name" (.jstr ""))))))

/-- Step 1: ensure `x_axis` (lines 224-235). -/
def tsStep1XAxis (params : Params) (columns : List JVal) : Params :=
  if dhas params "x_axis" then params
  else
    match dateTypedColumns columns with
    | col :: _ => dset params "x_axis" (jget col "column_name")
    | [] =>
      match dateNamedColumns columns with
      | col :: _ => dset params "x_axis" (jget col "column_name")
      | [] =>
        dset params "x_axis"
          (match columns with
           | col :: _ => jgetD col "column_name" (.jstr "id")
           | [] => .jstr "id")

/-- Step 2: default `time_grain_sqla` (lines 238-239). -/
def tsStep2Grain (params : Params) : Params :=
  if dhas params "time_grain_sqla" then params
  else dset params "time_grain_sqla" (.jstr "P1W")

/-- Columns whose type contains a numeric token (line 258). -/
def numericColumns (columns : List JVal) : List JVal :=
  columns.filter (fun col =>
    ["int", "float", "decimal", "numeric"].any (fun t =>
      strContainsSub t (strLower (pyStr (jgetD col "type" (.jstr ""))))))

/-- Step 3: metrics normalization (lines 242-267). -/
def tsStep3Metrics (params : Params) (ds : Dataset) : Params :=
  if dhas params "metrics" then
    match dget params "metrics" with
    | some (.jlist ms) => dset params "metrics" (.jlist (ms.map (fun m => enhanceMetric m ds)))
    | _ => params
  else if dhas params "metric" then
    let m := (dget params "metric").getD .jnull
    derase (dset params "metrics" (.jlist [enhanceMetric m ds])) "metric"
  else
    match numericColumns ds.columns with
    | col :: _ =>
        dset params "metrics"
          (.jlist [buildMetricObject (.jstr "SUM") col
            (.jstr ("SUM(" ++ pyStr (jget col "column_name") ++ ")"))])
    | [] =>
      let firstCol :=
        match ds.columns with
        | col :: _ => col
        | [] => .jdict [("column_name", .jstr "id"), ("type", .jstr "INTEGER")]
      dset params "metrics"
        (.jlist [buildMetricObject (.jstr "COUNT") firstCol
          (.jstr ("COUNT(" ++ pyStr (jget firstCol "column_name") ++ ")"))])

/-- Columns whose type contains a categorical token (line 272). -/
def categoricalColumns (columns : List JVal) : List JVal :=
  columns.filter (fun col =>
    ["varchar", "text", "string", "char"].any (fun t =>
      strContainsSub t (strLower (pyStr (jgetD col "type" (.jstr ""))))))

/-- Step 4: default `groupby` (lines 270-282). -/
def tsStep4Groupby (params : Params) (columns : List JVal) : Params :=
  if dhas params "groupby" then params
  else
    match categoricalColumns columns with
    | [] => dset params "groupby" (.jlist [])
    | catCols =>
      let xAxis := (dget params "x_axis").getD (.jstr "")
      match catCols.filter (fun col => !jvalEqb (jget col "column_name") xAxis) with
      | col :: _ => dset params "groupby" (.jlist [jget col "column_name"])
      | [] => dset params "groupby" (.jlist [])

/-- The key scan of step 5 (lines 287-292): first key containing
`contribution` whose value is a string `column`/`row` (case-insensitively). -/
def scanContributionKeys : Params → Option String
  | [] => none
  | (k, v) :: rest =>
    if strContainsSub "contribution" (strLower k) then
      match v with
      | .jstr s =>
        if strLower s = "column" || strLower s = "row" then some (strLower s)
        else scanContributionKeys rest
      | _ => scanContributionKeys rest
    else scanContributionKeys rest

/-- Step 5: contribution-mode key normalization (lines 285-296). -/
def tsStep5Contribution (params : Params) : Params :=
  if !dhas params "contribution_mode" && !dhas params "contributionMode" then
    match scanContributionKeys params with
    | some s => dset params "contributionMode" (.jstr s)
    | none => params
  else if dhas params "contribution_mode" then
    let v := (dget params "contribution_mode").getD .jnull
    derase (dset params "contributionMode" v) "contribution_mode"
  else params

/-- Step 5a: fix an invalid `contributionMode` (lines 299-303). -/
def tsStep5aFixContribution (params : Params) : Params :=
  match dget params "contributionMode" with
  | some v =>
    if jvalEqb v (.jstr "column") || jvalEqb v (.jstr "row") then params
    else dset params "contributionMode" (.jstr "column")
  | none => params

/-- Step 6: remove fields not used by timeseries (lines 306-309). -/
def tsStep6RemoveInvalid (params : Params) : Params :=
  derase (derase (derase params "series") "x_axis_object") "y_axis"

/-- The `default_timeseries_params` literal (lines 312-345), in source order. -/
def defaultTimeseriesParams : Params := [
  ("x_axis_sort_asc", .jbool true),
  ("x_axis_sort_series", .jstr "name"),
  ("x_axis_sort_series_ascending", .jbool true),
  ("order_desc", .jbool true),
  ("row_limit", .jint 1000),
  ("truncate_metric", .jbool true),
  ("show_empty_columns", .jbool true),
  ("comparison_type", .jstr "values"),
  ("contributionMode", .jstr "column"),
  ("annotation_layers", .jlist []),
  ("forecastPeriods", .jint 10),
  ("forecastInterval", .jrat (4/5 : Rat)),
  ("x_axis_title_margin", .jint 15),
  ("y_axis_title_margin", .jint 30),
  ("y_axis_title_position", .jstr "Left"),
  ("sort_series_type", .jstr "sum"),
  ("color_scheme", .jstr "bnbColors"),
  ("time_shift_color", .jbool true),
  ("seriesType", .jstr "line"),
  ("only_total", .jbool true),
  ("opacity", .jrat (1/5 : Rat)),
  ("markerSize", .jint 6),
  ("show_legend", .jbool true),
  ("legendType", .jstr "scroll"),
  ("legendOrientation", .jstr "top"),
  ("x_axis_time_format", .jstr "smart_date"),
  ("rich_tooltip", .jbool true),
  ("showTooltipTotal", .jbool true),
  ("tooltipTimeFormat", .jstr "smart_date"),
  ("y_axis_format", .jstr ",.2f"),
  ("truncateXAxis", .jbool true),
  ("y_axis_bounds", .jlist [.jnull, .jnull])]

/-- `for key, value in defaults.items(): if key not in params: params[key] = value`. -/
def applyDefaults (params : Params) (defaults : Params) : Params :=
  defaults.foldl (fun p kv => if dhas p kv.1 then p else dset p kv.1 kv.2) params

/-- The temporal filter inserted by step 7 (lines 355-361). -/
def temporalFilterFor (subject : JVal) : JVal :=
  .jdict [("clause", .jstr "WHERE"), ("subject", subject),
          ("operator", .jstr "TEMPORAL_RANGE"), ("comparator", .jstr "No filter"),
          ("expressionType", .jstr "SIMPLE")]

/-- The rewrite loop of step 7's else-branch (lines 367-370): rewrite the
subject of the first `TEMPORAL_RANGE` filter. A non-dict filter item makes
the source raise `AttributeError` (modelled as an error). -/
def rewriteFirstTemporal (items : List JVal) (xAxis : JVal) : Except String (List JVal) :=
  match items with
  | [] => .ok []
  | item :: rest =>
    match item with
    | .jdict es =>
      if jvalEqb ((dget es "operator").getD .jnull) (.jstr "TEMPORAL_RANGE") then
        .ok (.jdict (dset es "subject" xAxis) :: rest)
      else
        (rewriteFirstTemporal rest xAxis).map (fun r => item :: r)
    | _ => .error "AttributeError: filter item has no attribute get"

/-- Step 7: ensure the temporal filter (lines 352-370).  Iterating a truthy
non-list `adhoc_filters` raises in the source (chars of a string, keys of a
dict, or TypeError), modelled as an error. -/
def tsStep7TemporalFilter (params : Params) : Except String Params :=
  let af? := dget params "adhoc_filters"
  let xAxis := (dget params "x_axis").getD (.jstr "")
  if (match af? with | none => true | some v => !v.truthy) then
    if xAxis.truthy then
      .ok (dset params "adhoc_filters" (.jlist [temporalFilterFor xAxis]))
    else .ok params
  else
    if xAxis.truthy then
      match af? with
      | some (.jlist items) =>
        (rewriteFirstTemporal items xAxis).map
          (fun items' => dset params "adhoc_filters" (.jlist items'))
      | _ => .error "iterating non-list adhoc_filters"
    else .ok params

/-- The pipeline before step 7. -/
def tsPreFilter (params : Params) (ds : Dataset) : Params :=
  applyDefaults
    (tsStep6RemoveInvalid
      (tsStep5aFixContribution
        (tsStep5Contribution
          (tsStep4Groupby
            (tsStep3Metrics
              (tsStep2Grain (tsStep1XAxis params ds.columns)) ds)
            ds.columns))))
    defaultTimeseriesParams

/-- `ChartValidator._validate_timeseries_params` (lines 211-374). -/
def validateTimeseriesParams (params : Params) (ds : Dataset) : Except String Params :=
  tsStep7TemporalFilter (tsPreFilter params ds)

/-! ## `ChartValidator._validate_pie_funnel_params` (lines 123-149) and the
big-number variants (lines 151-209, 376-425). -/

/-- Shared singular-metric conversion: `metrics` array collapsed to the
first element, or an existing `metric` enhanced in place. -/
def singularMetricConversion (params : Params) (ds : Dataset) : Params :=
  if dhas params "metrics" && !dhas params "metric" then
    let p' :=
      match dget params "metrics" with
      | some (.jlist (m :: _)) => dset params "metric" (enhanceMetric m ds)
      | _ => params
    derase p' "metrics"
  else if dhas params "metric" then
    dset params "metric" (enhanceMetric ((dget params "metric").getD .jnull) ds)
  else params

/-- `ChartValidator._validate_pie_funnel_params`. -/
def validatePieFunnelParams (params : Params) (ds : Dataset) : Params :=
  singularMetricConversion params ds

/-- `ChartValidator._validate_big_number_temporal_params` (lines 376-425).
Iterating a non-list `adhoc_filters` or calling `.get` on a non-dict filter
item raises in the source; modelled as skipping those items (degraded). -/
def validateBigNumberTemporalParams (params : Params) (ds : Dataset) : Params :=
  let columns := ds.columns
  let p1 :=
    if !dhas params "x_axis" || !((dget params "x_axis").getD .jnull).truthy then
      match dateTypedColumns columns with
      | col :: _ => dset params "x_axis" (jget col "column_name")
      | [] =>
        match dateNamedColumns columns with
        | col :: _ => dset params "x_axis" (jget col "column_name")
        | [] => params
    else params
  let p2 :=
    if dhas p1 "time_grain_sqla" then p1 else dset p1 "time_grain_sqla" (.jstr "P1D")
  if dhas p2 "x_axis" then
    let xAxis := (dget p2 "x_axis").getD .jnull
    let afs :=
      match dget p2 "adhoc_filters" with
      | some (.jlist xs) => xs
      | _ => []
    let hasTemporal := afs.any (fun f =>
      jvalEqb (jget f "operator") (.jstr "TEMPORAL_RANGE") && jvalEqb (jget f "subject") xAxis)
    if hasTemporal then p2
    else dset p2 "adhoc_filters" (.jlist (afs ++ [temporalFilterFor xAxis]))
  else p2

/-- `ChartValidator._validate_big_number_params` (lines 151-181). -/
def validateBigNumberParams (params : Params) (ds : Dataset) : Params :=
  let p1 := singularMetricConversion params ds
  if dhas p1 "x_axis" || dhas p1 "time_grain_sqla" then
    validateBigNumberTemporalParams p1 ds
  else p1

/-- `ChartValidator._validate_big_number_total_params` (lines 183-209). -/
def validateBigNumberTotalParams (params : Params) (ds : Dataset) : Params :=
  singularMetricConversion params ds

/-! ## Table ordering (`_process_table_ordering`, `_map_ordering_terms_to_columns`,
`_map_single_ordering_term`; chart_validator.py lines 500-622). -/

/-- The `date_mappings` literal of `_map_single_ordering_term`
(lines 592-599), in source order. -/
def dateMappings : List (String × List String) := [
  ("created date", ["created_date", "created_at", "date_created", "create_date"]),
  ("updated date", ["updated_date", "updated_at", "date_updated", "update_date"]),
  ("order date", ["order_date", "date_order", "order_time"]),
  ("tanggal dibuat", ["created_date", "tanggal_dibuat", "created_at"]),
  ("tanggal", ["date", "tanggal", "created_date", "order_date"]),
  ("waktu", ["time", "waktu", "created_at", "updated_at"])]

/-- Lines 601-606: first mapping whose key occurs in the lowered term and
whose candidate list contains an actual column; a key match with no column
candidate falls through to the next mapping. -/
def dateMapLookup (mappings : List (String × List String)) (termLower : String)
    (columnNames : List String) : Option String :=
  match mappings with
  | [] => none
  | (key, cands) :: rest =>
    if strContainsSub key termLower then
      match cands.find? (fun c => columnNames.contains c) with
      | some c => some c
      | none => dateMapLookup rest termLower columnNames
    else dateMapLookup rest termLower columnNames

/-- Lines 608-615: substring match in either direction, plus a temporal
keyword in the column name. -/
def fuzzyTemporalMatch (termLower : String) (columnNames : List String) : Option String :=
  columnNames.find? (fun col =>
    let colLower := strLower col
    (strContainsSub termLower colLower || strContainsSub colLower termLower)
    && ["date", "time", "created", "updated", "tanggal", "waktu"].any
         (fun w => strContainsSub w colLower))

/-- `ChartValidator._map_single_ordering_term` (lines 576-622). -/
def mapSingleOrderingTerm (term : JVal) (columnNames : List String) : String :=
  match term with
  | .jstr t =>
    if t = "" then ""
    else
      let termLower := strTrim (strLower t)
      if columnNames.contains t then t
      else
        match dateMapLookup dateMappings termLower columnNames with
        | some c => c
        | none =>
          match fuzzyTemporalMatch termLower columnNames with
          | some c => c
          | none =>
            match columnNames.find? (fun c => strLower c = termLower) with
            | some c => c
            | none => ""
  | _ => ""

/-- `ChartValidator._map_ordering_terms_to_columns` (lines 561-574):
map every term, dropping failures and duplicates. -/
def mapOrderingTermsToColumns (terms : List JVal) (columnNames : List String) : List String :=
  terms.foldl (fun acc t =>
    let m := mapSingleOrderingTerm t columnNames
    if m ≠ "" && !acc.contains m then acc ++ [m] else acc) []

/-- The per-term validation loop of `_process_table_ordering`
(lines 533-537): unmappable terms are dropped. -/
def validOrderCols (terms : List JVal) (columnNames : List String) : List String :=
  terms.filterMap (fun t =>
    let m := mapSingleOrderingTerm t columnNames
    if m = "" then none else some m)

/-- Lines 543-546: `["column_name", ascending]` tuple serialization, with
the ascending boolean the negation of `order_desc`'s truthiness. -/
def formatOrderCol (col : String) (orderDesc : JVal) : JVal :=
  .jstr ("[\"" ++ col ++ "\", " ++ (if orderDesc.truthy then "false" else "true") ++ "]")

/-- The ordering-hint collection loop (lines 516-524): values of keys
containing `order` that are non-empty strings or lists. -/
def collectOrderingHints (params : Params) : List JVal :=
  params.foldl (fun acc kv =>
    if strContainsSub "order" (strLower kv.1) then
      match kv.2 with
      | .jstr s => if s ≠ "" then acc ++ [.jstr s] else acc
      | .jlist xs => if !xs.isEmpty then acc ++ xs.map (fun v => .jstr (pyStr v)) else acc
      | _ => acc
    else acc) []

/-- The ordering terms of a supplied truthy `order_by_cols` value: a list
yields its items, a string its characters (Python string iteration); other
truthy values raise TypeError in the source, modelled as no terms. -/
def orderByColsTerms : JVal → List JVal
  | .jlist xs => xs
  | .jstr s => s.toList.map (fun c => .jstr (String.mk [c]))
  | _ => []

/-- `ChartValidator._process_table_ordering` (lines 500-559). -/
def processTableOrdering (params : Params) (ds : Dataset) : Params :=
  let columnNames : List String := ds.columns.map (fun col => asStrD (jget col "column_name"))
  let orderByCols := (dget params "order_by_cols").getD (.jlist [])
  let p1 :=
    if !orderByCols.truthy then
      let hints := collectOrderingHints params
      let orderColumns := mapOrderingTermsToColumns hints columnNames
      if !orderColumns.isEmpty then
        dset params "order_by_cols" (.jlist (orderColumns.map (fun c => .jstr c)))
      else params
    else
      let valid := validOrderCols (orderByColsTerms orderByCols) columnNames
      if !valid.isEmpty then
        let orderDesc := (dget params "order_desc").getD (.jbool true)
        dset params "order_by_cols" (.jlist (valid.map (fun c => formatOrderCol c orderDesc)))
      else dset params "order_by_cols" (.jlist [])
  if dhas p1 "order_desc" then p1 else dset p1 "order_desc" (.jbool true)

/-! ## `ChartValidator._validate_table_params` (lines 427-498). -/

/-- Aggregate-mode metric handling (lines 445-460). -/
def tableAggregateMetrics (params : Params) (ds : Dataset) : Params :=
  if dhas params "metric" && !dhas params "metrics" then
    let m := (dget params "metric").getD .jnull
    derase (dset params "metrics" (.jlist [enhanceMetric m ds])) "metric"
  else if dhas params "metrics" then
    match dget params "metrics" with
    | some (.jlist ms) => dset params "metrics" (.jlist (ms.map (fun m => enhanceMetric m ds)))
    | _ => params
  else params

/-- Ensure `percent_metrics` / `timeseries_limit_metric` (lines 463-467).
`metrics[0]` on a truthy non-list raises or picks a character in the
source; modelled only for lists (degraded otherwise). -/
def tablePercentMetrics (params : Params) : Params :=
  if (match dget params "metrics" with | some v => v.truthy | none => false) then
    let p1 :=
      if dhas params "percent_metrics" then params
      else dset params "percent_metrics" ((dget params "metrics").getD .jnull)
    if dhas p1 "timeseries_limit_metric" then p1
    else
      match dget p1 "metrics" with
      | some (.jlist (m :: _)) => dset p1 "timeseries_limit_metric" m
      | _ => p1
  else params

/-- `temporal_columns_lookup` synthesis (lines 470-479).  The dict key is
the first temporal column's name (rendered via `str()` where the source
would use the raw value). -/
def tableTemporalLookup (params : Params) (columns : List JVal) : Params :=
  if dhas params "temporal_columns_lookup" then params
  else
    let lookup : JVal :=
      match dateTypedColumns columns with
      | col :: _ => .jdict [(asStrD (jget col "column_name"), .jbool true)]
      | [] =>
        match dateNamedColumns columns with
        | col :: _ => .jdict [(asStrD (jget col "column_name"), .jbool true)]
        | [] => .jdict []
    dset params "temporal_columns_lookup" lookup

/-- `ChartValidator._validate_table_params`. -/
def validateTableParams (params : Params) (ds : Dataset) : Params :=
  let columns := ds.columns
  let queryMode := (dget params "query_mode").getD (.jstr "aggregate")
  if jvalEqb queryMode (.jstr "aggregate") then
    tableTemporalLookup (tablePercentMetrics (tableAggregateMetrics params ds)) columns
  else
    -- raw mode (lines 481-494)
    let p1 :=
      if (match dget params "columns" with | some v => v.truthy | none => false) then params
      else
        dset params "columns"
          (.jlist ((columns.take 7).map (fun col => jget col "column_name")))
    let p2 := processTableOrdering p1 ds
    let p3 := dset p2 "groupby" (.jlist [])
    let p4 := dset p3 "metrics" (.jlist [])
    dset p4 "all_columns" ((dget p4 "columns").getD (.jlist []))

/-! ## `CHART_CONFIGS` (constants.py lines 32-248): the supported chart
types and their `default_params` templates. -/

def pieDefaultParams : Params := [
  ("adhoc_filters", .jlist []),
  ("color_scheme", .jstr "d3Category20c"),
  ("datasource", .jstr ""),
  ("granularity_sqla", .jstr ""),
  ("groupby", .jlist []),
  ("innerRadius", .jint 30),
  ("metric", .jstr "count(*)"),
  ("outerRadius", .jint 70),
  ("donut", .jbool false),
  ("row_limit", .jint 50),
  ("show_labels", .jbool true),
  ("show_legend", .jbool true),
  ("show_values", .jbool true),
  ("sort_by_metric", .jbool true)]

def tableDefaultParams : Params := [
  ("adhoc_filters", .jlist []),
  ("all_columns", .jlist []),
  ("datasource", .jstr ""),
  ("granularity_sqla", .jstr ""),
  ("groupby", .jlist []),
  ("metrics", .jlist []),
  ("order_by_cols", .jlist []),
  ("row_limit", .jint 1000),
  ("show_totals", .jbool true),
  ("table_timestamp_format", .jstr "%Y-%m-%d %H:%M:%S")]

def timeseriesBarDefaultParams : Params := [
  ("adhoc_filters", .jlist []),
  ("datasource", .jstr ""),
  ("granularity_sqla", .jstr ""),
  ("x_axis", .jstr ""),
  ("metrics", .jlist []),
  ("row_limit", .jint 10000),
  ("sort_by", .jstr ""),
  ("x_axis_sort_asc", .jbool true),
  ("y_axis_format", .jstr ""),
  ("show_legend", .jbool true),
  ("rich_tooltip", .jbool true),
  ("show_controls", .jbool true)]

/-- The empty-subject temporal filter appearing in the line/area defaults. -/
def emptyTemporalFilter : JVal :=
  .jdict [("clause", .jstr "WHERE"), ("subject", .jstr ""),
          ("operator", .jstr "TEMPORAL_RANGE"), ("comparator", .jstr "No filter"),
          ("expressionType", .jstr "SIMPLE")]

def timeseriesLineDefaultParams : Params := [
  ("datasource", .jstr ""),
  ("x_axis", .jstr ""),
  ("time_grain_sqla", .jstr "P1W"),
  ("x_axis_sort_asc", .jbool true),
  ("x_axis_sort_series", .jstr "name"),
  ("x_axis_sort_series_ascending", .jbool true),
  ("metrics", .jlist []),
  ("groupby", .jlist []),
  ("contributionMode", .jstr "column"),
  ("adhoc_filters", .jlist [emptyTemporalFilter]),
  ("order_desc", .jbool true),
  ("row_limit", .jint 1000),
  ("truncate_metric", .jbool true),
  ("show_empty_columns", .jbool true),
  ("comparison_type", .jstr "values"),
  ("annotation_layers", .jlist []),
  ("forecastPeriods", .jint 10),
  ("forecastInterval", .jrat (4/5 : Rat)),
  ("x_axis_title_margin", .jint 15),
  ("y_axis_title_margin", .jint 30),
  ("y_axis_title_position", .jstr "Left"),
  ("sort_series_type", .jstr "sum"),
  ("color_scheme", .jstr "bnbColors"),
  ("time_shift_color", .jbool true),
  ("seriesType", .jstr "line"),
  ("only_total", .jbool true),
  ("opacity", .jrat (1/5 : Rat)),
  ("markerSize", .jint 6),
  ("show_legend", .jbool true),
  ("legendType", .jstr "scroll"),
  ("legendOrientation", .jstr "top"),
  ("x_axis_time_format", .jstr "smart_date"),
  ("rich_tooltip", .jbool true),
  ("showTooltipTotal", .jbool true),
  ("tooltipTimeFormat", .jstr "smart_date"),
  ("y_axis_format", .jstr ",.2f"),
  ("truncateXAxis", .jbool true),
  ("y_axis_bounds", .jlist [.jnull, .jnull])]

def echartsAreaDefaultParams : Params := [
  ("datasource", .jstr ""),
  ("x_axis", .jstr ""),
  ("time_grain_sqla", .jstr "P1D"),
  ("x_axis_sort_asc", .jbool true),
  ("x_axis_sort_series", .jstr "name"),
  ("x_axis_sort_series_ascending", .jbool true),
  ("metrics", .jlist []),
  ("groupby", .jlist []),
  ("contributionMode", .jstr "column"),
  ("adhoc_filters", .jlist [emptyTemporalFilter]),
  ("order_desc", .jbool true),
  ("row_limit", .jint 1000),
  ("truncate_metric", .jbool true),
  ("show_empty_columns", .jbool true),
  ("comparison_type", .jstr "values"),
  ("annotation_layers", .jlist []),
  ("forecastPeriods", .jint 10),
  ("forecastInterval", .jrat (4/5 : Rat)),
  ("x_axis_title_margin", .jint 15),
  ("y_axis_title_margin", .jint 30),
  ("y_axis_title_position", .jstr "Left"),
  ("sort_series_type", .jstr "sum"),
  ("color_scheme", .jstr "supersetColors"),
  ("time_shift_color", .jbool true),
  ("seriesType", .jstr "line"),
  ("only_total", .jbool true),
  ("opacity", .jrat (1/5 : Rat)),
  ("markerSize", .jint 6),
  ("show_legend", .jbool true),
  ("legendType", .jstr "scroll"),
  ("legendOrientation", .jstr "top"),
  ("x_axis_time_format", .jstr "smart_date"),
  ("rich_tooltip", .jbool true),
  ("showTooltipTotal", .jbool true),
  ("tooltipTimeFormat", .jstr "smart_date"),
  ("y_axis_format", .jstr "SMART_NUMBER"),
  ("truncateXAxis", .jbool true),
  ("y_axis_bounds", .jlist [.jnull, .jnull])]

/-- The `active_date` temporal filter of the big-number/funnel defaults. -/
def activeDateTemporalFilter : JVal :=
  .jdict [("clause", .jstr "WHERE"), ("subject", .jstr "active_date"),
          ("operator", .jstr "TEMPORAL_RANGE"), ("comparator", .jstr "No filter"),
          ("expressionType", .jstr "SIMPLE")]

def bigNumberDefaultParams : Params := [
  ("adhoc_filters", .jlist [activeDateTemporalFilter]),
  ("datasource", .jstr ""),
  ("metric", .jstr "count(*)"),
  ("x_axis", .jstr ""),
  ("time_grain_sqla", .jstr "P1D"),
  ("show_trend_line", .jbool true),
  ("start_y_axis_at_zero", .jbool true),
  ("color_picker", .jdict [("r", .jint 0), ("g", .jint 122), ("b", .jint 135), ("a", .jint 1)]),
  ("header_font_size", .jrat (2/5 : Rat)),
  ("subheader_font_size", .jrat (3/20 : Rat)),
  ("y_axis_format", .jstr "SMART_NUMBER"),
  ("time_format", .jstr "smart_date"),
  ("rolling_type", .jstr "None"),
  ("extra_form_data", .jdict []),
  ("dashboards", .jlist [])]

/-- The big-number-total default filter lists its keys in a different
order in the source. -/
def activeDateTemporalFilterAlt : JVal :=
  .jdict [("clause", .jstr "WHERE"), ("comparator", .jstr "No filter"),
          ("expressionType", .jstr "SIMPLE"), ("operator", .jstr "TEMPORAL_RANGE"),
          ("subject", .jstr "active_date")]

def bigNumberTotalDefaultParams : Params := [
  ("adhoc_filters", .jlist [activeDateTemporalFilterAlt]),
  ("datasource", .jstr ""),
  ("metric", .jstr "count(*)"),
  ("header_font_size", .jrat (2/5 : Rat)),
  ("subheader_font_size", .jrat (3/20 : Rat)),
  ("y_axis_format", .jstr "SMART_NUMBER"),
  ("time_format", .jstr "smart_date"),
  ("extra_form_data", .jdict []),
  ("dashboards", .jlist [])]

def funnelDefaultParams : Params := [
  ("adhoc_filters", .jlist [activeDateTemporalFilter]),
  ("color_scheme", .jstr "supersetColors"),
  ("datasource", .jstr ""),
  ("groupby", .jlist []),
  ("metric", .jstr "count(*)"),
  ("row_limit", .jint 10),
  ("sort_by_metric", .jbool true),
  ("percent_calculation_type", .jstr "first_step"),
  ("show_legend", .jbool true),
  ("legendOrientation", .jstr "top"),
  ("tooltip_label_type", .jint 5),
  ("number_format", .jstr "SMART_NUMBER"),
  ("show_labels", .jbool true),
  ("show_tooltip_labels", .jbool true),
  ("extra_form_data", .jdict []),
  ("dashboards", .jlist [])]

/-- The keys of `CHART_CONFIGS`, in source order. -/
def chartConfigKeys : List String :=
  ["pie", "table", "echarts_timeseries_bar", "echarts_timeseries_line",
   "echarts_area", "big_number", "big_number_total", "funnel"]

/-- `CHART_CONFIGS[vizType]["default_params"]` for supported types
(callers only reach this with a supported key; others yield `[]`). -/
def defaultParamsFor (vizType : String) : Params :=
  if vizType = "pie" then pieDefaultParams
  else if vizType = "table" then tableDefaultParams
  else if vizType = "echarts_timeseries_bar" then timeseriesBarDefaultParams
  else if vizType = "echarts_timeseries_line" then timeseriesLineDefaultParams
  else if vizType = "echarts_area" then echartsAreaDefaultParams
  else if vizType = "big_number" then bigNumberDefaultParams
  else if vizType = "big_number_total" then bigNumberTotalDefaultParams
  else if vizType = "funnel" then funnelDefaultParams
  else []

/-! ## `ChartValidator.validate_params_by_chart_type` and
`ChartValidator.validate_ai_response` (chart_validator.py lines 18-121). -/

/-- `ChartValidator.validate_params_by_chart_type` (lines 91-121). -/
def validateParamsByChartType (params : Params) (chartType : String) (ds : Dataset) :
    Except String Params :=
  if chartType = "pie" || chartType = "funnel" then
    .ok (validatePieFunnelParams params ds)
  else if chartType = "echarts_timeseries_line" || chartType = "echarts_timeseries_bar"
      || chartType = "echarts_area" then
    validateTimeseriesParams params ds
  else if chartType = "big_number" then
    .ok (validateBigNumberParams params ds)
  else if chartType = "big_number_total" then
    .ok (validateBigNumberTotalParams params ds)
  else if chartType = "table" then
    .ok (validateTableParams params ds)
  else .ok params

/-- Is `viz_type` a key of `CHART_CONFIGS`?  A non-string (unhashable)
value would raise on the dict-membership test in the source for lists and
dicts; modelled as "not a key". -/
def isSupportedVizType (v : JVal) : Bool :=
  match v with
  | .jstr s => chartConfigKeys.contains s
  | _ => false

/-- The `slice_name` generated for a candidate that lacks one (line 43). -/
def generatedSliceName (ds : Dataset) : JVal :=
  .jstr ("Generated Chart - " ++ pyStr ds.tableNameVal)

/-- The required-fields loop of `validate_ai_response` (lines 37-43):
`viz_type` is never filled in; `slice_name` then `datasource_id` are
appended when missing. -/
def varRequiredFields (aiResponse : Params) (ds : Dataset) : Params :=
  let a1 :=
    if dhas aiResponse "slice_name" then aiResponse
    else dset aiResponse "slice_name" (generatedSliceName ds)
  if dhas a1 "datasource_id" then a1 else dset a1 "datasource_id" ds.idVal

/-- viz_type validation (lines 46-50): unknown types are retargeted to
`table`. -/
def varVizTypeFix (p : Params) : Params :=
  if isSupportedVizType ((dget p "viz_type").getD .jnull) then p
  else dset p "viz_type" (.jstr "table")

/-- The local `viz_type` string after the fix. -/
def varVizTypeName (p : Params) : String :=
  match (dget p "viz_type").getD .jnull with
  | .jstr s => if chartConfigKeys.contains s then s else "table"
  | _ => "table"

/-- params handling (lines 53-62): a dict `params` is validated per chart
type and JSON-encoded; a missing `params` gets the chart type's default
template (with `datasource` filled in); any other `params` value is kept. -/
def varParamsStage (p : Params) (vizType : String) (ds : Dataset) : Except String Params :=
  match dget p "params" with
  | some (.jdict ps) =>
    (validateParamsByChartType ps vizType ds).map
      (fun vp => dset p "params" (.jstr (pyJsonDumps (.jdict vp))))
  | some _ => .ok p
  | none =>
    .ok (dset p "params" (.jstr (pyJsonDumps (.jdict
      (dset (defaultParamsFor vizType) "datasource"
        (.jstr (pyStr ds.idVal ++ "__table")))))))

/-- datasource_type default and invalid-field stripping (lines 65-73). -/
def varFinalize (p : Params) : Params :=
  derase (derase
    (if dhas p "datasource_type" then p else dset p "datasource_type" (.jstr "table"))
    "dataset_id") "table_name"

/-- The body of `validate_ai_response`'s `try:` block (lines 34-75).
Any error is caught by `validateAiResponse` below. -/
def validateAiResponseBody (aiResponse : Params) (ds : Dataset) : Except String Params :=
  let a2 := varRequiredFields aiResponse ds
  (varParamsStage (varVizTypeFix a2) (varVizTypeName a2) ds).map varFinalize

/-- The minimal valid configuration returned by the `except` branch
(lines 77-89). -/
def minimalValidConfig (ds : Dataset) : Params :=
  [("viz_type", .jstr "table"),
   ("slice_name", generatedSliceName ds),
   ("datasource_id", ds.idVal),
   ("datasource_type", .jstr "table"),
   ("params", .jstr (pyJsonDumps (.jdict
      [("datasource", .jstr (pyStr ds.idVal ++ "__table")),
       ("viz_type", .jstr "table")])))]

/-- `ChartValidator.validate_ai_response` (lines 18-89): the `try/except`
wrapper.  Total: every internal failure degrades to `minimalValidConfig`. -/
def validateAiResponse (aiResponse : Params) (ds : Dataset) : Params :=
  match validateAiResponseBody aiResponse ds with
  | .ok r => r
  | .error _ => minimalValidConfig ds

/-! ## `json.loads` (used by `generate_query_context` on string params).
A fuel-based recursive-descent JSON parser; `\u` escapes and exponents are
not modelled (none occur in the JSON the pipeline produces). -/

def skipWs (l : List Char) : List Char :=
  l.dropWhile (fun c => c = ' ' || c = '\n' || c = '\t' || c = '\r')

def digitsToNat (ds : List Char) : Nat :=
  ds.foldl (fun a c => a * 10 + (c.toNat - 48)) 0

def parseStringBody : Nat → List Char → Option (String × List Char)
  | 0, _ => none
  | _ + 1, [] => none
  | fuel + 1, c :: rest =>
    if c = '"' then some ("", rest)
    else if c = '\\' then
      match rest with
      | e :: rest' =>
        (parseStringBody fuel rest').map
          (fun p => (String.mk [if e = 'n' then '\n' else e] ++ p.1, p.2))
      | [] => none
    else (parseStringBody fuel rest).map (fun p => (String.mk [c] ++ p.1, p.2))

def parseNumberTok (l : List Char) : Option (JVal × List Char) :=
  let neg := match l with | '-' :: _ => true | _ => false
  let l1 := match l with | '-' :: r => r | _ => l
  let ds := l1.takeWhile Char.isDigit
  let r2 := l1.dropWhile Char.isDigit
  if ds.isEmpty then none
  else
    let n : Int := Int.ofNat (digitsToNat ds)
    match r2 with
    | '.' :: r3 =>
      let fs := r3.takeWhile Char.isDigit
      let r4 := r3.dropWhile Char.isDigit
      if fs.isEmpty then none
      else
        let q : Rat := (n : Rat) + ((digitsToNat fs : Rat) / ((10 : Rat) ^ fs.length))
        some (.jrat (if neg then -q else q), r4)
    | _ => some (.jint (if neg then -n else n), r2)

mutual
def parseJVal : Nat → List Char → Option (JVal × List Char)
  | 0, _ => none
  | fuel + 1, l =>
    match skipWs l with
    | [] => none
    | c :: rest =>
      if c = 'n' then
        if ['u', 'l', 'l'].isPrefixOf rest then some (.jnull, rest.drop 3) else none
      else if c = 't' then
        if ['r', 'u', 'e'].isPrefixOf rest then some (.jbool true, rest.drop 3) else none
      else if c = 'f' then
        if ['a', 'l', 's', 'e'].isPrefixOf rest then some (.jbool false, rest.drop 4) else none
      else if c = '"' then (parseStringBody fuel rest).map (fun p => (.jstr p.1, p.2))
      else if c = '[' then
        match skipWs rest with
        | ']' :: r => some (.jlist [], r)
        | _ => (parseJItems fuel rest).map (fun p => (.jlist p.1, p.2))
      else if c = '\x7b' then
        match skipWs rest with
        | '\x7d' :: r => some (.jdict [], r)
        | _ => (parseJFields fuel rest).map (fun p => (.jdict p.1, p.2))
      else parseNumberTok (c :: rest)
def parseJItems : Nat → List Char → Option (List JVal × List Char)
  | 0, _ => none
  | fuel + 1, l =>
    match parseJVal fuel l with
    | none => none
    | some (v, r) =>
      match skipWs r with
      | ',' :: r' => (parseJItems fuel r').map (fun p => (v :: p.1, p.2))
      | ']' :: r' => some ([v], r')
      | _ => none
def parseJFields : Nat → List Char → Option (Params × List Char)
  | 0, _ => none
  | fuel + 1, l =>
    match skipWs l with
    | '"' :: r =>
      (match parseStringBody fuel r with
       | none => none
       | some (k, r1) =>
         match skipWs r1 with
         | ':' :: r2 =>
           (match parseJVal fuel r2 with
            | none => none
            | some (v, r3) =>
              match skipWs r3 with
              | ',' :: r4 => (parseJFields fuel r4).map (fun p => ((k, v) :: p.1, p.2))
              | '\x7d' :: r4 => some ([(k, v)], r4)
              | _ => none)
         | _ => none)
    | _ => none
end

def pyJsonLoads (s : String) : Except String JVal :=
  match parseJVal (2 * s.length + 8) s.toList with
  | some (v, rest) =>
    if (skipWs rest).isEmpty then .ok v else .error "json.loads: extra data"
  | none => .error "json.loads: invalid JSON"

/-! ## `QueryContextBuilder` (builders/query_context_builder.py)

`generate_query_context` performs `DEFAULT_QUERY_CONTEXT.copy()` — a
*shallow* copy: the nested `datasource` dict and the `queries` list (hence
`queries[0]` and its nested `filters`/`extras`) remain the module-level
objects.  We model those shared nested objects as explicit state `QCShared`
threaded through calls; the module's pristine values are
`initialQCDatasource` / `initialQCQuery` (constants.py lines 387-417). -/

structure QCShared where
  datasource : Params
  q0 : Params

def initialQCDatasource : Params := [("id", .jnull), ("type", .jstr "table")]

def initialQCQuery : Params := [
  ("time_range", .jstr "No filter"),
  ("granularity", .jstr "ds"),
  ("filters", .jlist []),
  ("extras", .jdict [("having", .jstr ""), ("where", .jstr "")]),
  ("applied_time_extras", .jdict []),
  ("columns", .jlist []),
  ("metrics", .jlist []),
  ("orderby", .jlist []),
  ("annotation_layers", .jlist []),
  ("row_limit", .jint 10000),
  ("timeseries_limit", .jint 0),
  ("order_desc", .jbool true),
  ("url_params", .jdict []),
  ("custom_params", .jdict []),
  ("custom_form_data", .jdict [])]

/-- The pristine module state at import time. -/
def initialQCShared : QCShared := ⟨initialQCDatasource, initialQCQuery⟩

/-- Python iteration (`for x in v`): list items, string characters, dict
keys; anything else raises TypeError. -/
def pyIter : JVal → Option (List JVal)
  | .jlist xs => some xs
  | .jstr s => some (s.toList.map (fun c => .jstr (String.mk [c])))
  | .jdict es => some (es.map (fun kv => .jstr kv.1))
  | _ => none

/-- `query["extras"][k] = v` (source raises on a non-dict `extras`;
degraded to a no-op — `extras` is always a dict here). -/
def setInExtras (q : Params) (k : String) (v : JVal) : Params :=
  match dget q "extras" with
  | some (.jdict es) => dset q "extras" (.jdict (dset es k v))
  | _ => q

/-- `query["filters"].append(f)` (source raises on a non-list `filters`;
degraded to a no-op — `filters` is always a list here). -/
def appendToFilters (q : Params) (f : JVal) : Params :=
  match dget q "filters" with
  | some (.jlist fs) => dset q "filters" (.jlist (fs ++ [f]))
  | _ => q

/-- The `{"col": .., "op": "TEMPORAL_RANGE", "val": "No filter"}` filter. -/
def qcTemporalFilter (col : JVal) : JVal :=
  .jdict [("col", col), ("op", .jstr "TEMPORAL_RANGE"), ("val", .jstr "No filter")]

/-- The full BASE_AXIS time column of `build_timeseries_query_context`
(lines 140-156). -/
def tsTimeColumn (timeGrain xAxis colInfo : JVal) : JVal :=
  .jdict [
    ("timeGrain", timeGrain),
    ("columnType", .jstr "BASE_AXIS"),
    ("sqlExpression", xAxis),
    ("label", xAxis),
    ("expressionType", .jstr "SIMPLE"),
    ("column", .jdict [
      ("column_name", jget colInfo "column_name"),
      ("type", jget colInfo "type"),
      ("is_dttm", jgetD colInfo "is_dttm" (.jbool true)),
      ("python_date_format", jgetD colInfo "python_date_format" (.jstr "mixed")),
      ("description", jgetD colInfo "description" (.jstr "")),
      ("filterable", jgetD colInfo "filterable" (.jbool true)),
      ("groupby", jgetD colInfo "groupby" (.jbool true)),
      ("verbose_name", jgetD colInfo "verbose_name" xAxis)])]

/-- The fallback BASE_AXIS time column (lines 160-167). -/
def tsTimeColumnBare (timeGrain xAxis : JVal) : JVal :=
  .jdict [
    ("timeGrain", timeGrain),
    ("columnType", .jstr "BASE_AXIS"),
    ("sqlExpression", xAxis),
    ("label", xAxis),
    ("expressionType", .jstr "SIMPLE")]

/-- The `metric_labels` dict of the timeseries post-processing
(lines 200-205).  A non-string dict label would be used raw as a dict key
in the source; rendered via `str()` here. -/
def tsMetricLabels (ms : List JVal) : Params :=
  ms.foldl (fun acc m =>
    match m with
    | .jdict es =>
      if dhas es "label" then
        dset acc (asStrD ((dget es "label").getD .jnull)) (.jdict [("operator", .jstr "mean")])
      else acc
    | .jstr s => dset acc s (.jdict [("operator", .jstr "mean")])
    | _ => acc) []

/-- `QueryContextBuilder.build_timeseries_query_context` (lines 105-239),
as a transformation of the shared `queries[0]` dict. -/
def buildTimeseriesQueryContext (q : Params) (params : JVal) (ds : Dataset) :
    Except String Params := do
  -- 1. metrics
  let q := if jhas params "metrics" then dset q "metrics" (jget params "metrics") else q
  -- 2. columns: time axis then groupby entries
  let axisCols : List JVal :=
    if jhas params "x_axis" then
      let xAxis := jget params "x_axis"
      let timeGrain := jgetD params "time_grain_sqla" (.jstr "P1W")
      match findColumnByName ds.columns xAxis with
      | some colInfo => [tsTimeColumn timeGrain xAxis colInfo]
      | none => [tsTimeColumnBare timeGrain xAxis]
    else []
  let groupbyItems ←
    if jhas params "groupby" then
      match pyIter (jget params "groupby") with
      | some xs => pure xs
      | none => throw "TypeError: groupby is not iterable"
    else pure []
  let q := dset q "columns" (.jlist (axisCols ++ groupbyItems))
  -- 3. series_columns
  let q :=
    if jhas params "groupby" && (jget params "groupby").truthy then
      dset q "series_columns" (jget params "groupby")
    else q
  -- 4. extras.time_grain_sqla
  let q :=
    if jhas params "time_grain_sqla" then
      setInExtras q "time_grain_sqla" (jget params "time_grain_sqla")
    else q
  -- 5. temporal filter
  let q :=
    if jhas params "x_axis" then appendToFilters q (qcTemporalFilter (jget params "x_axis"))
    else q
  -- 6. post_processing
  let xAxis := jgetD params "x_axis" (.jstr "")
  let groupby := jgetD params "groupby" (.jlist [])
  let metrics := jgetD params "metrics" (.jlist [])
  if groupby.truthy && metrics.truthy then
    let ms ←
      match pyIter metrics with
      | some xs => pure xs
      | none => throw "TypeError: metrics is not iterable"
    let labels := tsMetricLabels ms
    match labels with
    | [] => throw "IndexError: metric_labels is empty"
    | (k0, _) :: restLabels =>
      let renameVal : JVal := if restLabels.isEmpty then .jnull else .jstr k0
      let pp : JVal := .jlist [
        .jdict [("operation", .jstr "pivot"),
                ("options", .jdict [("index", .jlist [xAxis]), ("columns", groupby),
                                    ("aggregates", .jdict labels),
                                    ("drop_missing_columns", .jbool false)])],
        .jdict [("operation", .jstr "rename"),
                ("options", .jdict [("columns", .jdict [(k0, renameVal)]),
                                    ("level", .jint 0), ("inplace", .jbool true)])],
        .jdict [("operation", .jstr "contribution"),
                ("options", .jdict [("orientation", jgetD params "contributionMode" (.jstr "column")),
                                    ("time_shifts", .jlist [])])],
        .jdict [("operation", .jstr "flatten")]]
      pure (dset q "post_processing" pp)
  else pure q

/-- `QueryContextBuilder.build_big_number_temporal_query_context`
(lines 241-315). -/
def buildBigNumberTemporalQueryContext (q : Params) (params : JVal) (ds : Dataset) : Params :=
  let q :=
    if jhas params "x_axis" then
      let xAxis := jget params "x_axis"
      let timeGrain := jgetD params "time_grain_sqla" (.jstr "P1D")
      let q :=
        match findColumnByName ds.columns xAxis with
        | some _ =>
          dset q "columns" (.jlist [.jdict [
            ("timeGrain", timeGrain), ("columnType", .jstr "BASE_AXIS"),
            ("sqlExpression", xAxis), ("label", xAxis), ("expressionType", .jstr "SQL")]])
        | none => q
      let q := setInExtras q "time_grain_sqla" timeGrain
      appendToFilters q (qcTemporalFilter xAxis)
    else q
  let xAxis := jgetD params "x_axis" (.jstr "")
  let metrics := jgetD params "metric" (.jdict [])
  if xAxis.truthy && metrics.truthy then
    let metricLabel : String :=
      match metrics with
      | .jdict es => asStrD ((dget es "label").getD (.jstr "metric"))
      | other => pyStr other
    let pp : JVal := .jlist [
      .jdict [("operation", .jstr "pivot"),
              ("options", .jdict [("index", .jlist [xAxis]), ("columns", .jlist []),
                                  ("aggregates", .jdict [(metricLabel, .jdict [("operator", .jstr "mean")])]),
                                  ("drop_missing_columns", .jbool true)])],
      .jdict [("operation", .jstr "flatten")]]
    dset q "post_processing" pp
  else q

/-- `QueryContextBuilder.build_table_query_context` (lines 317-429). -/
def buildTableQueryContext (q : Params) (params : JVal) (_ds : Dataset) :
    Except String Params := do
  let queryMode := jgetD params "query_mode" (.jstr "aggregate")
  if jvalEqb queryMode (.jstr "aggregate") then
    let q :=
      if jhas params "groupby" && (jget params "groupby").truthy then
        dset q "columns" (jget params "groupby")
      else q
    let q :=
      if jhas params "metrics" && (jget params "metrics").truthy then
        dset q "metrics" (jget params "metrics")
      else q
    let q ←
      if jhas params "metrics" && (jget params "metrics").truthy then
        match jget params "metrics" with
        | .jlist (primary :: _) =>
          let q := dset q "orderby" (.jlist [.jlist [primary, .jbool false]])
          let q :=
            if jhas params "timeseries_limit_metric"
                && (jget params "timeseries_limit_metric").truthy then
              dset q "series_limit_metric" (jget params "timeseries_limit_metric")
            else dset q "series_limit_metric" primary
          pure q
        | .jlist [] => pure q
        | _ => throw "TypeError: metrics has no len or index"
      else pure q
    let q ←
      if jhas params "percent_metrics" && (jget params "percent_metrics").truthy then
        match pyIter (jget params "percent_metrics") with
        | none => throw "TypeError: percent_metrics is not iterable"
        | some pms =>
          let metricColumns := pms.filterMap (fun m =>
            match m with
            | .jdict es => if dhas es "label" then some (asStrD ((dget es "label").getD .jnull)) else none
            | .jstr s => some s
            | _ => none)
          if metricColumns.isEmpty then pure q
          else
            let pp : JVal := .jlist [.jdict [
              ("operation", .jstr "contribution"),
              ("options", .jdict [
                ("columns", .jlist (metricColumns.map (fun c => .jstr c))),
                ("rename_columns", .jlist (metricColumns.map (fun c => .jstr ("%" ++ c))))])]]
            pure (dset q "post_processing" pp)
      else pure q
    if jhas params "temporal_columns_lookup" && (jget params "temporal_columns_lookup").truthy then
      match jget params "temporal_columns_lookup" with
      | .jdict lookup =>
        match lookup.find? (fun kv => kv.2.truthy) with
        | some (colName, _) =>
          let q := appendToFilters q (qcTemporalFilter (.jstr colName))
          let q :=
            if jhas params "time_grain_sqla" then
              setInExtras q "time_grain_sqla" (jget params "time_grain_sqla")
            else q
          pure q
        | none => pure q
      | _ => throw "AttributeError: temporal_columns_lookup has no items"
    else pure q
  else
    -- raw mode (lines 395-427)
    if jhas params "columns" && (jget params "columns").truthy then
      let q := dset q "metrics" (.jlist [.jstr "count(*)"])
      let q := dset q "columns" (.jlist [])
      let cols ←
        match pyIter (jget params "columns") with
        | some xs => pure xs
        | none => throw "TypeError: columns is not iterable"
      let colStrs ←
        cols.mapM (fun c =>
          match c with
          | .jstr s => pure s
          | _ => throw "AttributeError: column item has no lower")
      let dateColumns := colStrs.filter (fun c =>
        ["date", "time"].any (fun w => strContainsSub w (strLower c)))
      match dateColumns with
      | [] => pure q
      | d0 :: _ =>
        let q := dset q "columns" (.jlist [.jdict [
          ("timeGrain", jgetD params "time_grain_sqla" (.jstr "P1D")),
          ("columnType", .jstr "BASE_AXIS"), ("sqlExpression", .jstr d0),
          ("label", .jstr d0), ("expressionType", .jstr "SQL")]])
        let pp : JVal := .jlist [
          .jdict [("operation", .jstr "pivot"),
                  ("options", .jdict [("index", .jlist [.jstr d0]), ("columns", .jlist []),
                                      ("aggregates", .jdict [("Total Saldo", .jdict [("operator", .jstr "mean")])]),
                                      ("drop_missing_columns", .jbool true)])],
          .jdict [("operation", .jstr "flatten")]]
        pure (dset q "post_processing" pp)
    else pure q

/-- `QueryContextBuilder.generate_query_context` (lines 18-103), threading
the shared nested objects `QCShared` (see the section comment): the
returned value aliases the shared state at return time. -/
def generateQueryContext (st : QCShared) (chartConfig : Params) (ds : Dataset) :
    QCShared × JVal :=
  -- line 33-34: shallow copy, then mutate the *shared* datasource dict
  let st := QCShared.mk (dset st.datasource "id" ds.idVal) st.q0
  let body : Except String Params := do
    let params ←
      match dget chartConfig "params" with
      | some (.jstr s) => pyJsonLoads s
      | some v => pure v
      | none => pure (.jdict [])
    let q := st.q0
    let vizType := (dget chartConfig "viz_type").getD (.jstr "table")
    let isViz : String → Bool := fun t => jvalEqb vizType (.jstr t)
    let q ←
      if isViz "pie" || isViz "funnel" || isViz "big_number" || isViz "big_number_total" then
        let q :=
          if jhas params "metric" then dset q "metrics" (.jlist [jget params "metric"])
          else if jhas params "metrics" then dset q "metrics" (jget params "metrics")
          else dset q "metrics" (.jlist [.jstr "count(*)"])
        if isViz "big_number" && jhas params "x_axis" && jhas params "time_grain_sqla" then
          pure (buildBigNumberTemporalQueryContext q params ds)
        else pure q
      else if isViz "echarts_timeseries_line" || isViz "echarts_timeseries_bar"
          || isViz "echarts_area" then
        buildTimeseriesQueryContext q params ds
      else if isViz "table" then
        buildTableQueryContext q params ds
      else
        -- lines 73-91: generic plural-metrics handling
        if jhas params "metrics" then
          match jget params "metrics" with
          | .jlist ms =>
            if ms.isEmpty then pure (dset q "metrics" (.jlist [.jstr "count(*)"]))
            else
              pure (dset q "metrics" (.jlist (ms.map (fun m =>
                match m with
                | .jstr _ => m
                | .jdict _ => m
                | _ => .jstr "count(*)"))))
          | _ => pure (dset q "metrics" (.jlist [.jstr "count(*)"]))
        else pure (dset q "metrics" (.jlist [.jstr "count(*)"]))
    let q := if jhas params "groupby" then dset q "columns" (jget params "groupby") else q
    let q := if jhas params "row_limit" then dset q "row_limit" (jget params "row_limit") else q
    pure q
  let st :=
    match body with
    | .ok q => QCShared.mk st.datasource q
    | .error _ => QCShared.mk st.datasource (dset st.q0 "metrics" (.jlist [.jstr "count(*)"]))
  (st, .jdict [
    ("datasource", .jdict st.datasource),
    ("force", .jbool false),
    ("queries", .jlist [.jdict st.q0]),
    ("result_format", .jstr "json"),
    ("result_type", .jstr "full")])

/-! ## Object identity of `enhance_metric_with_column_metadata`

`enhanceMetric` above gives the value-level behaviour.  Claim-relevant
aliasing (which dict object is returned, and which is mutated in place) is
captured by a heap-instrumented version: metric dicts live at addresses in
a small heap; branches in which the source returns `metric` itself return
the input address, branches that build a new dict allocate. -/

structure MHeap where
  store : List (Nat × JVal)
  next : Nat

def heapGet (h : MHeap) (a : Nat) : JVal :=
  match h.store.find? (fun kv => kv.1 == a) with
  | some kv => kv.2
  | none => .jnull

def heapSetStore (store : List (Nat × JVal)) (a : Nat) (v : JVal) : List (Nat × JVal) :=
  match store with
  | [] => [(a, v)]
  | (a', v') :: rest =>
    if a' = a then (a, v) :: rest else (a', v') :: heapSetStore rest a v

def heapSet (h : MHeap) (a : Nat) (v : JVal) : MHeap :=
  MHeap.mk (heapSetStore h.store a v) h.next

def heapAlloc (h : MHeap) (v : JVal) : MHeap × Nat :=
  (MHeap.mk (h.store ++ [(h.next, v)]) (h.next + 1), h.next)

/-- Heap-instrumented `enhanceDictNoColumn` (lines 90-112): the rebuild
paths allocate a new object, the `return metric` paths return the input
address. -/
def enhanceDictNoColumnRef (h : MHeap) (a : Nat) (es : Params) (ds : Dataset) : MHeap × Nat :=
  if dhas es "aggregate" && !dhas es "sqlExpression" then
    let aggregate := (dget es "aggregate").getD (.jstr "COUNT")
    let label := (dget es "label").getD (.jstr (pyStr aggregate ++ "(*)"))
    let labelS := asStrD label
    let viaLabel : Option JVal :=
      if strContainsSub "(" labelS && strContainsSub ")" labelS then
        let colMatch := parenSlice labelS
        if colMatch ≠ "*" then
          match findColumnByName ds.columns (.jstr colMatch) with
          | some col => some (buildMetricObject aggregate col label)
          | none => none
        else none
      else none
    match viaLabel with
    | some m => heapAlloc h m
    | none =>
      match ds.columns with
      | col :: _ => heapAlloc h (buildMetricObject aggregate col label)
      | [] => (h, a)
  else (h, a)

/-- `MetricBuilder.enhance_metric_with_column_metadata`, heap-instrumented.
Returns the updated heap and the address of the returned object.  The
non-dict-metric inputs are passed by value (strings are immutable); their
results are freshly allocated. -/
def enhanceMetricRef (h : MHeap) (a : Nat) (ds : Dataset) : MHeap × Nat :=
  match heapGet h a with
  | .jdict es =>
    (match dget es "column" with
     | some (.jdict colEs) =>
       if !dhas es "expressionType" || !dhas es "optionName" then
         -- lines 70-75: rebuild completely — a *new* metric object
         let aggregate := (dget es "aggregate").getD (.jstr "COUNT")
         let label := (dget es "label").getD (.jstr (pyStr aggregate ++ "(*)"))
         heapAlloc h (buildMetricObject aggregate (.jdict colEs) label)
       else if dhas colEs "id" then
         -- line 89: `return metric` — the same object, untouched
         (h, a)
       else
         -- lines 79-88: mutate `metric["column"]` in place, return metric
         let columnName := (dget colEs "column_name").getD (.jstr "")
         (match findColumnByName ds.columns columnName with
          | some col => (heapSet h a (.jdict (dset es "column" (buildColumnMetadata col))), a)
          | none => (h, a))
     | _ => enhanceDictNoColumnRef h a es ds)
  | v =>
    -- string or other non-dict metric: the result is a newly built dict
    heapAlloc h (enhanceMetric v ds)

/-! ## Fixtures: the concrete catalogs, candidates and projections used by
the claim theorems and their witnesses below. -/

def colCreatedAt : JVal :=
  .jdict [("column_name", .jstr "created_at"), ("type", .jstr "TIMESTAMP"), ("is_dttm", .jbool true)]
def colAmount : JVal := .jdict [("column_name", .jstr "amount"), ("type", .jstr "DECIMAL")]
def colCategory : JVal := .jdict [("column_name", .jstr "category"), ("type", .jstr "VARCHAR")]

/-- The Scenario B catalog. -/
def scenarioBDataset : Dataset := ⟨some (.jint 1), some (.jstr "orders"), [colCreatedAt, colAmount, colCategory]⟩

def getOk (e : Except String Params) : Params :=
  match e with
  | .ok p => p
  | .error _ => []

def isOkb (e : Except String Params) : Bool :=
  match e with
  | .ok _ => true
  | .error _ => false

/-- Scenario B normalization output. -/
def scenarioBOut : Params := getOk (validateTimeseriesParams [] scenarioBDataset)

def scenarioBMetric : JVal :=
  match dget scenarioBOut "metrics" with
  | some (.jlist (m :: _)) => m
  | _ => .jnull

def scenarioADataset : Dataset :=
  ⟨some (.jint 3), some (.jstr "tickets"),
   [.jdict [("column_name", .jstr "status"), ("type", .jstr "VARCHAR")],
    .jdict [("column_name", .jstr "id"), ("type", .jstr "INT")]]⟩

def scenarioAOut : Params :=
  validatePieFunnelParams [("metrics", .jlist [.jstr "count(*)"])] scenarioADataset

def scenarioAMetric : JVal := (dget scenarioAOut "metric").getD .jnull

def scenarioC8Dataset : Dataset :=
  ⟨some (.jint 8), some (.jstr "payments"),
   [.jdict [("column_name", .jstr "amount"), ("type", .jstr "DECIMAL")]]⟩

def scenarioDDataset : Dataset :=
  ⟨some (.jint 9), some (.jstr "orders_d"),
   [.jdict [("column_name", .jstr "created_date"), ("type", .jstr "DATE")],
    .jdict [("column_name", .jstr "amount"), ("type", .jstr "DECIMAL")]]⟩

def scenarioDOut : Params :=
  validateTableParams
    [("query_mode", .jstr "raw"), ("order_by_cols", .jlist [.jstr "tanggal dibuat"])]
    scenarioDDataset

def contribOKProp (p : Params) : Prop :=
  ∀ v, dget p "contributionMode" = some v → v = .jstr "column" ∨ v = .jstr "row"

/-- Decidable key-presence test on a defaults table. -/
def keysContain (defaults : List (String × JVal)) (k : String) : Bool :=
  defaults.any (fun kv => kv.1 == k)

def nonTemporalFilterC6 : JVal :=
  .jdict [("clause", .jstr "WHERE"), ("subject", .jstr "category"),
          ("operator", .jstr "IN"), ("comparator", .jlist [.jstr "open"]),
          ("expressionType", .jstr "SIMPLE")]

def c6CounterexampleOut : Params :=
  getOk (validateTimeseriesParams
    [("x_axis", .jstr "created_at"), ("adhoc_filters", .jlist [nonTemporalFilterC6])]
    scenarioBDataset)

/-- Does the params bag contain a TEMPORAL_RANGE adhoc filter whose subject
is the given value? -/
def filtersHaveTemporalWithSubject (p : Params) (x : JVal) : Bool :=
  match dget p "adhoc_filters" with
  | some (.jlist fs) =>
    fs.any (fun f => jvalEqb (jget f "operator") (.jstr "TEMPORAL_RANGE")
      && jvalEqb (jget f "subject") x)
  | _ => false

def c1ErrorCandidate : Params :=
  [("viz_type", .jstr "echarts_timeseries_line"),
   ("params", .jdict [("x_axis", .jstr "d"), ("adhoc_filters", .jlist [.jint 5])])]

def c1Dataset : Dataset := ⟨some (.jint 11), some (.jstr "sales"), []⟩

def c3Candidate : Params := [("viz_type", .jstr "unsupported_chart"), ("params", .jdict [])]

def c3Dataset : Dataset := ⟨some (.jint 5), some (.jstr "things"), []⟩

def c3WitnessCandidate : Params := [("viz_type", .jstr "fancy_chart")]

def c10Heap : MHeap :=
  ⟨[(0, .jdict [("expressionType", .jstr "SIMPLE"), ("optionName", .jstr "opt1"),
                ("column", .jdict [("column_name", .jstr "zzz")])])], 1⟩

def c10Dataset : Dataset :=
  ⟨some (.jint 7), some (.jstr "tickets"),
   [.jdict [("column_name", .jstr "status"), ("type", .jstr "VARCHAR")]]⟩

def c10WitnessHeap : MHeap :=
  ⟨[(4, .jdict [("expressionType", .jstr "SIMPLE"), ("optionName", .jstr "opt2"),
                ("column", .jdict [("column_name", .jstr "status")])])], 5⟩

def c10WitnessMetric : Params :=
  [("expressionType", .jstr "SIMPLE"), ("optionName", .jstr "opt2"),
   ("column", .jdict [("column_name", .jstr "status")])]

def c7Config : Params :=
  [("viz_type", .jstr "echarts_timeseries_line"),
   ("params", .jstr "\x7b\"x_axis\": \"d\", \"metrics\": [\"m1\"], \"groupby\": []\x7d")]

def c7Dataset1 : Dataset := ⟨some (.jint 7), some (.jstr "first"), []⟩
def c7Dataset2 : Dataset := ⟨some (.jint 9), some (.jstr "second"), []⟩

/-- The `filters` list of the first query node of a query-context value. -/
def resultFilters (v : JVal) : JVal :=
  match jget v "queries" with
  | .jlist (q :: _) => jget q "filters"
  | _ => .jnull

def c7StateAfterFirst : QCShared :=
  (generateQueryContext initialQCShared c7Config c7Dataset1).1


/-! # Theorems

Sanity checks on the Python-semantics helpers, the dictionary lemmas, and
the claim theorems. -/

set_option maxRecDepth 100000
set_option maxHeartbeats 2000000

-- Sanity checks on the Python-semantics helpers (concrete evaluations).
example : parenSlice "sum(nonexistent_col)" = "nonexistent_col" := by decide
example : parenSlice "count(*)" = "*" := by decide
example : strContainsSub "tanggal dibuat" "tanggal dibuat" = true := by decide
example : strContainsSub "created date" "tanggal dibuat" = false := by decide
example : dset [("a", .jint 1), ("b", .jint 2)] "a" (.jint 9)
    = [("a", .jint 9), ("b", .jint 2)] := rfl

-- Basic dictionary lemmas used throughout the proofs.

theorem dget_dset_self (es : Params) (k : String) (v : JVal) :
    dget (dset es k v) k = some v := by
  induction es with
  | nil => simp [dset, dget]
  | cons hd tl ih =>
    obtain ⟨k', v'⟩ := hd
    by_cases h : k' = k <;> simp [dset, dget, h, ih]

theorem dget_dset_ne (es : Params) (k k' : String) (v : JVal) (h : k' ≠ k) :
    dget (dset es k v) k' = dget es k' := by
  have hks : ¬ k = k' := fun hh => h hh.symm
  induction es with
  | nil => simp [dset, dget, hks]
  | cons hd tl ih =>
    obtain ⟨k0, v0⟩ := hd
    by_cases h0 : k0 = k
    · subst h0
      simp [dset, dget, hks]
    · by_cases h1 : k0 = k' <;> simp [dset, dget, h0, h1, h, ih]

theorem dget_derase_ne (es : Params) (k k' : String) (h : k' ≠ k) :
    dget (derase es k) k' = dget es k' := by
  have hks : ¬ k = k' := fun hh => h hh.symm
  induction es with
  | nil => simp [derase]
  | cons hd tl ih =>
    obtain ⟨k0, v0⟩ := hd
    by_cases h0 : k0 = k
    · subst h0
      simp [derase, dget, hks]
    · by_cases h1 : k0 = k' <;> simp [derase, dget, h0, h1, h, ih]

theorem dhas_dset_self (es : Params) (k : String) (v : JVal) :
    dhas (dset es k v) k = true := by
  simp [dhas, dget_dset_self]

theorem dhas_dset_ne (es : Params) (k k' : String) (v : JVal) (h : k' ≠ k) :
    dhas (dset es k v) k' = dhas es k' := by
  simp [dhas, dget_dset_ne es k k' v h]


/-! ### Concrete fixtures -/

/-- Claim C2: for the candidate `{"viz_type": "echarts_timeseries_line", "params": {}}`
over the catalog `[created_at(TIMESTAMP, is_dttm), amount(DECIMAL), category(VARCHAR)]`,
timeseries normalization succeeds and produces `x_axis = "created_at"`,
`time_grain_sqla = "P1W"`, a one-element metrics list holding a SIMPLE SUM
metric over `amount` labelled `SUM(amount)`, `groupby = ["category"]`, and
exactly one TEMPORAL_RANGE adhoc filter whose subject is `created_at`. -/
theorem scenarioB_timeseries_normalization :
    isOkb (validateTimeseriesParams [] scenarioBDataset) = true
    ∧ dget scenarioBOut "x_axis" = some (.jstr "created_at")
    ∧ dget scenarioBOut "time_grain_sqla" = some (.jstr "P1W")
    ∧ dget scenarioBOut "metrics" = some (.jlist [scenarioBMetric])
    ∧ jget scenarioBMetric "expressionType" = .jstr "SIMPLE"
    ∧ jget scenarioBMetric "aggregate" = .jstr "SUM"
    ∧ jget (jget scenarioBMetric "column") "column_name" = .jstr "amount"
    ∧ jget scenarioBMetric "label" = .jstr "SUM(amount)"
    ∧ dget scenarioBOut "groupby" = some (.jlist [.jstr "category"])
    ∧ dget scenarioBOut "adhoc_filters" = some (.jlist [temporalFilterFor (.jstr "created_at")]) :=
  ⟨rfl, rfl, rfl, rfl, rfl, rfl, rfl, rfl, rfl, rfl⟩

/-! ### C4: Scenario A (pie metrics collapse) -/

/-- Claim C4 counterexample: for the Scenario-A pie candidate, the collapsed
singular metric is labelled `COUNT(status)` (the first catalog column's
name), not `COUNT(*)` as the claim states. -/
theorem scenarioA_label_is_count_status_not_count_star :
    jget scenarioAMetric "label" = .jstr "COUNT(status)"
    ∧ ¬ jget scenarioAMetric "label" = .jstr "COUNT(*)" := by
  refine ⟨rfl, fun h => ?_⟩
  have h1 : (JVal.jstr "COUNT(status)") = (.jstr "COUNT(*)") := by
    have h0 : jget scenarioAMetric "label" = .jstr "COUNT(status)" := rfl
    rw [h0] at h
    exact h
  exact absurd (JVal.jstr.inj h1) (by decide)

/-- Claim C4 (amended): for `{"viz_type": "pie", "params": {"metrics": ["count(*)"]}}`
over `[status(VARCHAR), id(INT)]`, normalization collapses the plural metrics
list to a singular `metric` holding a SIMPLE COUNT metric over the first
catalog column (`status`) with label `COUNT(status)`, and the `metrics` key
is absent from the output params. -/
theorem scenarioA_metrics_collapse :
    dget scenarioAOut "metrics" = none
    ∧ dget scenarioAOut "metric" = some scenarioAMetric
    ∧ jget scenarioAMetric "expressionType" = .jstr "SIMPLE"
    ∧ jget scenarioAMetric "aggregate" = .jstr "COUNT"
    ∧ jget (jget scenarioAMetric "column") "column_name" = .jstr "status"
    ∧ jget scenarioAMetric "label" = .jstr "COUNT(status)" :=
  ⟨rfl, rfl, rfl, rfl, rfl, rfl⟩

/-! ### C8: unmatched sum() metric string -/

/-- Claim C8: resolving the metric string `"sum(nonexistent_col)"` against any
catalog with no column named `nonexistent_col` returns (without raising) the
raw-expression fallback `{expressionType: "SQL",
sqlExpression: "sum(nonexistent_col)", label: "SUM(NONEXISTENT_COL)"}`. -/
theorem metric_sum_nonexistent_falls_back (ds : Dataset)
    (h : ∀ col ∈ ds.columns, jvalEqb (jget col "column_name") (.jstr "nonexistent_col") = false) :
    enhanceMetric (.jstr "sum(nonexistent_col)") ds
      = .jdict [("expressionType", .jstr "SQL"),
                ("sqlExpression", .jstr "sum(nonexistent_col)"),
                ("label", .jstr "SUM(NONEXISTENT_COL)")] := by
  have hfind : findColumnByName ds.columns (.jstr "nonexistent_col") = none := by
    apply List.find?_eq_none.mpr
    intro col hc
    simp [h col hc]
  have hstep : enhanceMetric (.jstr "sum(nonexistent_col)") ds
      = match findColumnByName ds.columns (.jstr "nonexistent_col") with
        | some col => buildMetricObject (.jstr "SUM") col (.jstr "SUM(nonexistent_col)")
        | none => strMetricFallback "sum(nonexistent_col)" := rfl
  rw [hstep, hfind]
  rfl

/-- Claim C8 witness: the fallback at a concrete single-column catalog. -/
theorem metric_sum_nonexistent_falls_back_witness :
    enhanceMetric (.jstr "sum(nonexistent_col)") scenarioC8Dataset
      = .jdict [("expressionType", .jstr "SQL"),
                ("sqlExpression", .jstr "sum(nonexistent_col)"),
                ("label", .jstr "SUM(NONEXISTENT_COL)")] :=
  metric_sum_nonexistent_falls_back scenarioC8Dataset (by decide)

/-! ### C9: table raw-mode fuzzy ordering -/

/-- Claim C9: in table raw mode with `order_by_cols = ["tanggal dibuat"]` over a
catalog containing `created_date` and `order_desc` left at its default true,
the term resolves to `created_date` serialized as `["created_date", false]`;
and any ordering term the priority chain cannot map to a column is dropped
from the ordering without error. -/
theorem scenarioD_ordering_resolution :
    (dget scenarioDOut "order_by_cols" = some (.jlist [.jstr "[\"created_date\", false]"])
      ∧ mapSingleOrderingTerm (.jstr "tanggal dibuat") ["created_date", "amount"] = "created_date")
    ∧ ∀ (t : JVal) (ts : List JVal) (cns : List String),
        mapSingleOrderingTerm t cns = "" →
        validOrderCols (t :: ts) cns = validOrderCols ts cns := by
  refine ⟨⟨rfl, rfl⟩, fun t ts cns h => ?_⟩
  simp [validOrderCols, h]

/-- Claim C9 witness: a concrete unmappable term is dropped. -/
theorem scenarioD_ordering_resolution_witness :
    validOrderCols [.jstr "no such column", .jstr "created_date"] ["created_date"]
      = validOrderCols [.jstr "created_date"] ["created_date"] :=
  scenarioD_ordering_resolution.2 (.jstr "no such column") [.jstr "created_date"]
    ["created_date"] (by decide)

/-! ### C5: contributionMode invariant -/

theorem jvalEqb_jstr_true {v : JVal} {s : String} (h : jvalEqb v (.jstr s) = true) :
    v = .jstr s := by
  cases v <;> simp [jvalEqb] at h
  simp [h]

theorem contribOK_step5a (p : Params) : contribOKProp (tsStep5aFixContribution p) := by
  unfold tsStep5aFixContribution
  cases hm : dget p "contributionMode" with
  | none => intro v hv; rw [hm] at hv; cases hv
  | some v0 =>
    by_cases hval : (jvalEqb v0 (.jstr "column") || jvalEqb v0 (.jstr "row")) = true
    · simp only [hval, if_true]
      intro v hv
      rw [hm] at hv
      cases hv
      rcases Bool.or_eq_true_iff.mp hval with h1 | h1
      · exact Or.inl (jvalEqb_jstr_true h1)
      · exact Or.inr (jvalEqb_jstr_true h1)
    · simp only [Bool.not_eq_true] at hval
      simp only [hval, Bool.false_eq_true, if_false]
      intro v hv
      rw [dget_dset_self] at hv
      cases hv
      exact Or.inl rfl

theorem contribOK_step6 (p : Params) (h : contribOKProp p) :
    contribOKProp (tsStep6RemoveInvalid p) := by
  intro v hv
  unfold tsStep6RemoveInvalid at hv
  rw [dget_derase_ne _ _ _ (by decide), dget_derase_ne _ _ _ (by decide),
      dget_derase_ne _ _ _ (by decide)] at hv
  exact h v hv

theorem dhas_dset_mono (p : Params) (k k' : String) (v : JVal) (h : dhas p k = true) :
    dhas (dset p k' v) k = true := by
  by_cases hk : k' = k
  · subst hk; exact dhas_dset_self p k' v
  · rw [dhas_dset_ne p k' k v (fun hh => hk hh.symm)]; exact h

theorem contribOK_applyDefaults (defaults : List (String × JVal)) (p : Params)
    (hp : contribOKProp p)
    (hd : ∀ kv ∈ defaults, kv.1 = "contributionMode" → jvalEqb kv.2 (.jstr "column") = true) :
    contribOKProp (applyDefaults p defaults) := by
  induction defaults generalizing p with
  | nil => exact hp
  | cons kv rest ih =>
    obtain ⟨k, v⟩ := kv
    have hrest : ∀ kv ∈ rest, kv.1 = "contributionMode" → jvalEqb kv.2 (.jstr "column") = true :=
      fun kv hm => hd kv (List.mem_cons_of_mem _ hm)
    show contribOKProp (applyDefaults (if dhas p k then p else dset p k v) rest)
    have hstep : contribOKProp (if dhas p k then p else dset p k v) := by
      by_cases hk : dhas p k = true
      · simp only [hk, if_true]
        exact hp
      · simp only [Bool.not_eq_true] at hk
        simp only [hk, Bool.false_eq_true, if_false]
        by_cases hcm : k = "contributionMode"
        · subst hcm
          have hv : v = .jstr "column" :=
            jvalEqb_jstr_true (hd _ (List.mem_cons_self _ _) rfl)
          intro w hw
          rw [dget_dset_self] at hw
          cases hw
          rw [hv]
          exact Or.inl rfl
        · intro w hw
          rw [dget_dset_ne _ _ _ _ (fun hh => hcm hh.symm)] at hw
          exact hp w hw
    exact ih _ hstep hrest

theorem dhas_applyDefaults_mono (defaults : List (String × JVal)) (p : Params) (k : String)
    (h : dhas p k = true) : dhas (applyDefaults p defaults) k = true := by
  induction defaults generalizing p with
  | nil => exact h
  | cons kv rest ih =>
    obtain ⟨k0, v0⟩ := kv
    show dhas (applyDefaults (if dhas p k0 then p else dset p k0 v0) rest) k = true
    apply ih
    by_cases h0 : dhas p k0 = true
    · simp [h0, h]
    · simp only [Bool.not_eq_true] at h0
      simp only [h0, Bool.false_eq_true, if_false]
      exact dhas_dset_mono p k k0 v0 h

theorem dhas_applyDefaults_of_key (defaults : List (String × JVal)) (k : String)
    (h : keysContain defaults k = true) :
    ∀ (p : Params), dhas (applyDefaults p defaults) k = true := by
  induction defaults with
  | nil => simp [keysContain] at h
  | cons kv rest ih =>
    obtain ⟨k0, v0⟩ := kv
    intro p
    show dhas (applyDefaults (if dhas p k0 then p else dset p k0 v0) rest) k = true
    by_cases hk : k0 = k
    · subst hk
      apply dhas_applyDefaults_mono
      by_cases h0 : dhas p k0 = true
      · simp only [h0, if_true]
      · simp only [Bool.not_eq_true] at h0
        simp only [h0, Bool.false_eq_true, if_false]
        exact dhas_dset_self p k0 v0
    · have h' : keysContain rest k = true := by
        simp only [keysContain, List.any_cons, Bool.or_eq_true, beq_iff_eq] at h ⊢
        rcases h with h | h
        · exact absurd h hk
        · exact h
      exact ih h' _

theorem except_map_eq_ok {α β γ : Type} {f : α → β} {e : Except γ α} {b : β}
    (h : Except.map f e = .ok b) : ∃ a, e = .ok a ∧ b = f a := by
  cases e with
  | ok a =>
    refine ⟨a, rfl, ?_⟩
    have := h
    simp only [Except.map] at this
    exact (Except.ok.inj this).symm
  | error s => simp [Except.map] at h

theorem tsStep7_preserves_cm (p out : Params) (h : tsStep7TemporalFilter p = .ok out) :
    dget out "contributionMode" = dget p "contributionMode" := by
  simp only [tsStep7TemporalFilter] at h
  split at h
  · split at h
    · cases h
      exact dget_dset_ne _ _ _ _ (by decide)
    · cases h
      rfl
  · split at h
    · split at h
      · obtain ⟨items', heq, hout⟩ := except_map_eq_ok h
        subst hout
        exact dget_dset_ne _ _ _ _ (by decide)
      · exact Except.noConfusion h
    · cases h
      rfl

/-- Claim C5: every successful timeseries normalization output carries a
`contributionMode` key whose value is `"column"` or `"row"`; in particular
the Scenario-C candidate with `contributionMode: "series"` is corrected to
`"column"`. -/
theorem timeseries_contributionMode_invariant :
    (∀ (params : Params) (ds : Dataset) (out : Params),
       validateTimeseriesParams params ds = .ok out →
       ∃ v, dget out "contributionMode" = some v ∧ (v = .jstr "column" ∨ v = .jstr "row"))
    ∧ dget (getOk (validateTimeseriesParams [("contributionMode", .jstr "series")] scenarioBDataset))
        "contributionMode" = some (.jstr "column") := by
  constructor
  · intro params ds out h
    have hpre : contribOKProp (tsPreFilter params ds) := by
      apply contribOK_applyDefaults
      · exact contribOK_step6 _ (contribOK_step5a _)
      · decide
    have hhas : dhas (tsPreFilter params ds) "contributionMode" = true :=
      dhas_applyDefaults_of_key defaultTimeseriesParams "contributionMode" (by decide) _
    have hstep : tsStep7TemporalFilter (tsPreFilter params ds) = .ok out := h
    have hcm := tsStep7_preserves_cm _ _ hstep
    obtain ⟨v0, hv0⟩ := Option.isSome_iff_exists.mp hhas
    refine ⟨v0, ?_, hpre v0 hv0⟩
    rw [hcm, hv0]
  · rfl

/-- Claim C5 witness: the invariant instantiated at the Scenario-C input. -/
theorem timeseries_contributionMode_invariant_witness :
    ∃ v, dget (getOk (validateTimeseriesParams [("contributionMode", .jstr "series")]
           scenarioBDataset)) "contributionMode" = some v
      ∧ (v = .jstr "column" ∨ v = .jstr "row") :=
  timeseries_contributionMode_invariant.1 [("contributionMode", .jstr "series")]
    scenarioBDataset _ rfl

/-! ### C6: temporal filter handling -/

/-- Claim C6 counterexample: a timeseries candidate whose `adhoc_filters` list
is non-empty but contains only a non-temporal filter keeps that list
unchanged, so the output contains no TEMPORAL_RANGE filter at all even
though the resolved `x_axis` is non-empty — refuting the claim as stated. -/
theorem timeseries_nontemporal_filters_kept_unchanged :
    isOkb (validateTimeseriesParams
      [("x_axis", .jstr "created_at"), ("adhoc_filters", .jlist [nonTemporalFilterC6])]
      scenarioBDataset) = true
    ∧ dget c6CounterexampleOut "x_axis" = some (.jstr "created_at")
    ∧ dget c6CounterexampleOut "adhoc_filters" = some (.jlist [nonTemporalFilterC6])
    ∧ filtersHaveTemporalWithSubject c6CounterexampleOut (.jstr "created_at") = false :=
  ⟨rfl, rfl, rfl, rfl⟩

/-- Claim C6 (amended): with a truthy resolved `x_axis`: a missing or falsy
`adhoc_filters` gets a fresh TEMPORAL_RANGE filter bound to the axis; a
non-empty filter list is passed through the rewrite loop, which rewrites the
subject of the *first* TEMPORAL_RANGE filter to the resolved axis and leaves
a list of non-temporal dict filters entirely unchanged. -/
theorem timeseries_temporal_filter_cases :
    (∀ (params : Params) (ds : Dataset) (x : JVal),
      dget (tsPreFilter params ds) "x_axis" = some x → x.truthy = true →
      (match dget (tsPreFilter params ds) "adhoc_filters" with
       | none => true
       | some v => !v.truthy) = true →
      validateTimeseriesParams params ds
        = .ok (dset (tsPreFilter params ds) "adhoc_filters" (.jlist [temporalFilterFor x])))
    ∧ (∀ (params : Params) (ds : Dataset) (x : JVal) (fs fs' : List JVal),
      dget (tsPreFilter params ds) "x_axis" = some x → x.truthy = true →
      dget (tsPreFilter params ds) "adhoc_filters" = some (.jlist fs) →
      JVal.truthy (.jlist fs) = true →
      rewriteFirstTemporal fs x = .ok fs' →
      validateTimeseriesParams params ds
        = .ok (dset (tsPreFilter params ds) "adhoc_filters" (.jlist fs')))
    ∧ (∀ (pre : List JVal) (es : Params) (post : List JVal) (x : JVal),
      (∀ f ∈ pre, ∃ fes, f = .jdict fes
         ∧ jvalEqb ((dget fes "operator").getD .jnull) (.jstr "TEMPORAL_RANGE") = false) →
      jvalEqb ((dget es "operator").getD .jnull) (.jstr "TEMPORAL_RANGE") = true →
      rewriteFirstTemporal (pre ++ .jdict es :: post) x
        = .ok (pre ++ .jdict (dset es "subject" x) :: post))
    ∧ (∀ (fs : List JVal) (x : JVal),
      (∀ f ∈ fs, ∃ fes, f = .jdict fes
         ∧ jvalEqb ((dget fes "operator").getD .jnull) (.jstr "TEMPORAL_RANGE") = false) →
      rewriteFirstTemporal fs x = .ok fs) := by
  refine ⟨?_, ?_, ?_, ?_⟩
  · intro params ds x hx hxt haf
    show tsStep7TemporalFilter (tsPreFilter params ds) = _
    generalize tsPreFilter params ds = q at hx haf ⊢
    simp only [tsStep7TemporalFilter]
    rw [haf, hx]
    simp only [Option.getD, if_true]
    rw [hxt]
    simp
  · intro params ds x fs fs' hx hxt haf htr hrw
    show tsStep7TemporalFilter (tsPreFilter params ds) = _
    generalize tsPreFilter params ds = q at hx haf ⊢
    simp only [tsStep7TemporalFilter]
    rw [haf, hx]
    simp only [Option.getD, htr, Bool.not_true, Bool.false_eq_true, if_false]
    rw [hxt]
    simp only [if_true, hrw, Except.map]
  · intro pre es post x hpre hop
    induction pre with
    | nil =>
      simp only [List.nil_append, rewriteFirstTemporal, hop, if_true]
    | cons f rest ih =>
      obtain ⟨fes, hf, hfop⟩ := hpre f (List.mem_cons_self _ _)
      subst hf
      have hrest : ∀ f ∈ rest, ∃ fes, f = .jdict fes
          ∧ jvalEqb ((dget fes "operator").getD .jnull) (.jstr "TEMPORAL_RANGE") = false :=
        fun f hm => hpre f (List.mem_cons_of_mem _ hm)
      simp only [List.cons_append, rewriteFirstTemporal, hfop, Bool.false_eq_true, if_false,
        List.append_eq, ih hrest, Except.map]
  · intro fs x hfs
    induction fs with
    | nil => rfl
    | cons f rest ih =>
      obtain ⟨fes, hf, hfop⟩ := hfs f (List.mem_cons_self _ _)
      subst hf
      have hrest : ∀ f ∈ rest, ∃ fes, f = .jdict fes
          ∧ jvalEqb ((dget fes "operator").getD .jnull) (.jstr "TEMPORAL_RANGE") = false :=
        fun f hm => hfs f (List.mem_cons_of_mem _ hm)
      simp only [rewriteFirstTemporal, hfop, Bool.false_eq_true, if_false, ih hrest, Except.map]

/-- Claim C6 witness: the rewrite loop at a concrete non-temporal filter. -/
theorem timeseries_temporal_filter_cases_witness :
    rewriteFirstTemporal [nonTemporalFilterC6] (.jstr "created_at") = .ok [nonTemporalFilterC6] :=
  timeseries_temporal_filter_cases.2.2.2 [nonTemporalFilterC6] (.jstr "created_at")
    (fun f hf => by
      rcases List.mem_singleton.mp hf with rfl
      exact ⟨[("clause", .jstr "WHERE"), ("subject", .jstr "category"),
              ("operator", .jstr "IN"), ("comparator", .jlist [.jstr "open"]),
              ("expressionType", .jstr "SIMPLE")], rfl, by decide⟩)

/-! ### C1 and C3: validate_ai_response fallbacks -/

theorem dget_if_dset_ne (c : Prop) [Decidable c] (p : Params) (k k' : String) (v : JVal)
    (h : k' ≠ k) : dget (if c then p else dset p k v) k' = dget p k' := by
  by_cases hc : c <;> simp [hc, dget_dset_ne p k k' v h]

theorem dget_varRequiredFields_other (ai : Params) (ds : Dataset) (k : String)
    (h1 : k ≠ "slice_name") (h2 : k ≠ "datasource_id") :
    dget (varRequiredFields ai ds) k = dget ai k := by
  unfold varRequiredFields
  rw [dget_if_dset_ne _ _ _ _ _ h2, dget_if_dset_ne _ _ _ _ _ h1]

theorem varParamsStage_ok_preserves (p : Params) (vt : String) (ds : Dataset) (out : Params)
    (k : String) (hk : k ≠ "params") (h : varParamsStage p vt ds = .ok out) :
    dget out k = dget p k := by
  unfold varParamsStage at h
  split at h
  · obtain ⟨vp, hvp, hout⟩ := except_map_eq_ok h
    subst hout
    exact dget_dset_ne _ _ _ _ hk
  · cases h
    rfl
  · cases h
    exact dget_dset_ne _ _ _ _ hk

theorem dget_varFinalize_other (p : Params) (k : String)
    (h1 : k ≠ "datasource_type") (h2 : k ≠ "dataset_id") (h3 : k ≠ "table_name") :
    dget (varFinalize p) k = dget p k := by
  unfold varFinalize
  rw [dget_derase_ne _ _ _ h3, dget_derase_ne _ _ _ h2, dget_if_dset_ne _ _ _ _ _ h1]

theorem varVizTypeName_unsupported (p : Params)
    (h : isSupportedVizType ((dget p "viz_type").getD .jnull) = false) :
    varVizTypeName p = "table" := by
  unfold varVizTypeName
  cases hv : (dget p "viz_type").getD .jnull with
  | jstr s =>
    rw [hv] at h
    simp only [isSupportedVizType] at h
    simp only [h, Bool.false_eq_true, if_false]
  | jnull => rfl
  | jbool b => rfl
  | jint n => rfl
  | jrat q => rfl
  | jlist xs => rfl
  | jdict es => rfl

/-- Claim C1: `validateAiResponse` is a total function (the model of "never
raises past its boundary"), and whenever its `try:` body fails internally it
returns exactly the full-default table configuration: viz_type `table`, the
generated slice name, the dataset's id as `datasource_id`,
`datasource_type` `table`, and a JSON-encoded `params` string. -/
theorem validate_ai_response_error_fallback (ai : Params) (ds : Dataset) (e : String)
    (h : validateAiResponseBody ai ds = .error e) :
    validateAiResponse ai ds = minimalValidConfig ds
    ∧ dget (validateAiResponse ai ds) "viz_type" = some (.jstr "table")
    ∧ dget (validateAiResponse ai ds) "slice_name" = some (generatedSliceName ds)
    ∧ dget (validateAiResponse ai ds) "datasource_id" = some ds.idVal
    ∧ dget (validateAiResponse ai ds) "datasource_type" = some (.jstr "table")
    ∧ dget (validateAiResponse ai ds) "params" = some (.jstr (pyJsonDumps (.jdict
        [("datasource", .jstr (pyStr ds.idVal ++ "__table")),
         ("viz_type", .jstr "table")]))) := by
  have hres : validateAiResponse ai ds = minimalValidConfig ds := by
    unfold validateAiResponse
    rw [h]
  refine ⟨hres, ?_, ?_, ?_, ?_, ?_⟩ <;> rw [hres] <;> rfl

/-- Claim C1 witness: a timeseries candidate with a non-dict adhoc-filter item
makes the body fail, and the full-default table configuration is returned. -/
theorem validate_ai_response_error_fallback_witness :
    validateAiResponse c1ErrorCandidate c1Dataset = minimalValidConfig c1Dataset
    ∧ dget (validateAiResponse c1ErrorCandidate c1Dataset) "viz_type" = some (.jstr "table")
    ∧ dget (validateAiResponse c1ErrorCandidate c1Dataset) "slice_name"
        = some (generatedSliceName c1Dataset)
    ∧ dget (validateAiResponse c1ErrorCandidate c1Dataset) "datasource_id"
        = some c1Dataset.idVal
    ∧ dget (validateAiResponse c1ErrorCandidate c1Dataset) "datasource_type"
        = some (.jstr "table")
    ∧ dget (validateAiResponse c1ErrorCandidate c1Dataset) "params"
        = some (.jstr (pyJsonDumps (.jdict
            [("datasource", .jstr (pyStr c1Dataset.idVal ++ "__table")),
             ("viz_type", .jstr "table")]))) :=
  validate_ai_response_error_fallback c1ErrorCandidate c1Dataset
    "AttributeError: filter item has no attribute get" rfl

/-! ### C3: unsupported chart types -/

/-- Claim C3 counterexample: the candidate `{"viz_type": "unsupported_chart",
"params": {}}` is retargeted to `table`, but its validated parameter bag
contains neither `groupby` nor `metrics` — refuting the claim as stated. -/
theorem unsupported_viz_type_empty_params_lacks_groupby :
    dget (validateAiResponse c3Candidate c3Dataset) "viz_type" = some (.jstr "table")
    ∧ dget (validateAiResponse c3Candidate c3Dataset) "params"
        = some (.jstr (pyJsonDumps (.jdict (validateTableParams [] c3Dataset))))
    ∧ dget (validateTableParams [] c3Dataset) "groupby" = none
    ∧ dget (validateTableParams [] c3Dataset) "metrics" = none :=
  ⟨rfl, rfl, rfl, rfl⟩

/-- Claim C3 (amended): every candidate with an unsupported viz_type tag is
retargeted to viz_type `table` and never raises; the parameter bag is
guaranteed to contain non-null `groupby`/`metrics` only when the candidate
supplies no params dict, in which case the table default template (with
`groupby = []` and `metrics = []`) is used. -/
theorem unsupported_viz_type_fallback :
    (∀ (ai : Params) (ds : Dataset),
      isSupportedVizType ((dget ai "viz_type").getD .jnull) = false →
      dget (validateAiResponse ai ds) "viz_type" = some (.jstr "table"))
    ∧ (∀ (ai : Params) (ds : Dataset),
      isSupportedVizType ((dget ai "viz_type").getD .jnull) = false →
      dget ai "params" = none →
      dget (validateAiResponse ai ds) "params" = some (.jstr (pyJsonDumps (.jdict
        (dset tableDefaultParams "datasource" (.jstr (pyStr ds.idVal ++ "__table")))))))
    ∧ (∀ v, dget (dset tableDefaultParams "datasource" v) "groupby" = some (.jlist []))
    ∧ (∀ v, dget (dset tableDefaultParams "datasource" v) "metrics" = some (.jlist [])) := by
  have hpres : ∀ (ai : Params) (ds : Dataset),
      dget (varRequiredFields ai ds) "viz_type" = dget ai "viz_type" :=
    fun ai ds => dget_varRequiredFields_other ai ds _ (by decide) (by decide)
  refine ⟨?_, ?_, ?_, ?_⟩
  · intro ai ds hunsup
    unfold validateAiResponse validateAiResponseBody
    dsimp only
    have hfix : varVizTypeFix (varRequiredFields ai ds)
        = dset (varRequiredFields ai ds) "viz_type" (.jstr "table") := by
      unfold varVizTypeFix
      rw [hpres ai ds, hunsup]
      simp
    cases hps : varParamsStage (varVizTypeFix (varRequiredFields ai ds))
        (varVizTypeName (varRequiredFields ai ds)) ds with
    | error e => rfl
    | ok out =>
      simp only [Except.map]
      rw [dget_varFinalize_other _ _ (by decide) (by decide) (by decide),
          varParamsStage_ok_preserves _ _ _ _ _ (by decide) hps, hfix, dget_dset_self]
  · intro ai ds hunsup hnone
    unfold validateAiResponse validateAiResponseBody
    dsimp only
    have ha2 := hpres ai ds
    have hfix : varVizTypeFix (varRequiredFields ai ds)
        = dset (varRequiredFields ai ds) "viz_type" (.jstr "table") := by
      unfold varVizTypeFix
      rw [ha2, hunsup]
      simp
    have hvtn : varVizTypeName (varRequiredFields ai ds) = "table" := by
      apply varVizTypeName_unsupported
      rw [ha2]
      exact hunsup
    have hnone2 : dget (varVizTypeFix (varRequiredFields ai ds)) "params" = none := by
      rw [hfix, dget_dset_ne _ _ _ _ (by decide),
          dget_varRequiredFields_other _ _ _ (by decide) (by decide)]
      exact hnone
    have hps : varParamsStage (varVizTypeFix (varRequiredFields ai ds))
        (varVizTypeName (varRequiredFields ai ds)) ds
        = .ok (dset (varVizTypeFix (varRequiredFields ai ds)) "params"
            (.jstr (pyJsonDumps (.jdict (dset tableDefaultParams "datasource"
              (.jstr (pyStr ds.idVal ++ "__table"))))))) := by
      unfold varParamsStage
      rw [hnone2, hvtn]
      rfl
    rw [hps]
    simp only [Except.map]
    rw [dget_varFinalize_other _ _ (by decide) (by decide) (by decide), dget_dset_self]
  · intro v
    simp [tableDefaultParams, dset, dget]
  · intro v
    simp [tableDefaultParams, dset, dget]

/-- Claim C3 witness: a concrete unsupported-type candidate without params. -/
theorem unsupported_viz_type_fallback_witness :
    dget (validateAiResponse c3WitnessCandidate c3Dataset) "viz_type" = some (.jstr "table")
    ∧ dget (validateAiResponse c3WitnessCandidate c3Dataset) "params"
        = some (.jstr (pyJsonDumps (.jdict (dset tableDefaultParams "datasource"
            (.jstr (pyStr c3Dataset.idVal ++ "__table")))))) :=
  ⟨unsupported_viz_type_fallback.1 c3WitnessCandidate c3Dataset (by decide),
   unsupported_viz_type_fallback.2.1 c3WitnessCandidate c3Dataset (by decide) rfl⟩

/-! ### C10: in-place metric enrichment -/

theorem find_heapSetStore_self (store : List (Nat × JVal)) (a : Nat) (v : JVal) :
    (heapSetStore store a v).find? (fun kv => kv.1 == a) = some (a, v) := by
  induction store with
  | nil => simp [heapSetStore, List.find?]
  | cons kv rest ih =>
    obtain ⟨a0, v0⟩ := kv
    by_cases h0 : a0 = a
    · simp [heapSetStore, h0, List.find?]
    · simp [heapSetStore, h0, List.find?, ih]

theorem heapGet_heapSet_self (h : MHeap) (a : Nat) (v : JVal) :
    heapGet (heapSet h a v) a = v := by
  unfold heapGet heapSet
  simp [find_heapSetStore_self]

/-- Claim C10 (amended): when `enhance_metric_with_column_metadata` receives a
dict metric with a dict-valued `column` and both `expressionType` and
`optionName` present, it returns the very object it was given; when that
column lacks an `id` *and the catalog contains a column of the same name*,
it overwrites the metric's `column` entry in place, so the caller's retained
reference observes the enrichment; with no catalog match the heap is
untouched. -/
theorem enhance_metric_dict_in_place (h : MHeap) (a : Nat) (es colEs : Params) (ds : Dataset)
    (hget : heapGet h a = .jdict es)
    (hcol : dget es "column" = some (.jdict colEs))
    (hexp : dhas es "expressionType" = true)
    (hopt : dhas es "optionName" = true) :
    (enhanceMetricRef h a ds).2 = a
    ∧ (dhas colEs "id" = true → (enhanceMetricRef h a ds).1 = h)
    ∧ (dhas colEs "id" = false →
       (match findColumnByName ds.columns ((dget colEs "column_name").getD (.jstr "")) with
        | some col =>
          (enhanceMetricRef h a ds).1
            = heapSet h a (.jdict (dset es "column" (buildColumnMetadata col)))
          ∧ heapGet ((enhanceMetricRef h a ds).1) a
            = .jdict (dset es "column" (buildColumnMetadata col))
        | none => (enhanceMetricRef h a ds).1 = h)) := by
  have hred : enhanceMetricRef h a ds
      = (if dhas colEs "id" = true then (h, a)
         else
           match findColumnByName ds.columns ((dget colEs "column_name").getD (.jstr "")) with
           | some col => (heapSet h a (.jdict (dset es "column" (buildColumnMetadata col))), a)
           | none => (h, a)) := by
    unfold enhanceMetricRef
    rw [hget]
    dsimp only
    rw [hcol]
    dsimp only
    simp only [hexp, hopt, Bool.not_true, Bool.or_self, Bool.false_eq_true, if_false]
  by_cases hid : dhas colEs "id" = true
  · refine ⟨?_, fun _ => ?_, fun hc => ?_⟩
    · rw [hred]
      simp [hid]
    · rw [hred]
      simp [hid]
    · rw [hid] at hc
      cases hc
  · have hid' : dhas colEs "id" = false := by simpa using hid
    refine ⟨?_, fun hc => ?_, fun _ => ?_⟩
    · rw [hred]
      simp only [hid', Bool.false_eq_true, if_false]
      cases hf : findColumnByName ds.columns ((dget colEs "column_name").getD (.jstr ""))
        <;> rfl
    · rw [hid'] at hc
      cases hc
    · rw [hred]
      simp only [hid', Bool.false_eq_true, if_false]
      cases hf : findColumnByName ds.columns ((dget colEs "column_name").getD (.jstr "")) with
      | some col => exact ⟨rfl, heapGet_heapSet_self h a _⟩
      | none => rfl

/-- Claim C10 counterexample: with a column lacking an `id` but matching no
catalog column, nothing is overwritten — refuting the unconditional
"overwrites" reading of the claim. -/
theorem enhance_metric_no_catalog_match_no_overwrite :
    dhas [("column_name", .jstr "zzz")] "id" = false
    ∧ (enhanceMetricRef c10Heap 0 c10Dataset).2 = 0
    ∧ (enhanceMetricRef c10Heap 0 c10Dataset).1 = c10Heap
    ∧ jget (heapGet (enhanceMetricRef c10Heap 0 c10Dataset).1 0) "column"
        = .jdict [("column_name", .jstr "zzz")] :=
  ⟨rfl, rfl, rfl, rfl⟩

/-- Claim C10 witness: the in-place enrichment at a concrete matching column. -/
theorem enhance_metric_dict_in_place_witness :
    (enhanceMetricRef c10WitnessHeap 4 c10Dataset).2 = 4
    ∧ (dhas [("column_name", .jstr "status")] "id" = true →
       (enhanceMetricRef c10WitnessHeap 4 c10Dataset).1 = c10WitnessHeap)
    ∧ (dhas [("column_name", .jstr "status")] "id" = false →
       (match findColumnByName c10Dataset.columns
          ((dget [("column_name", .jstr "status")] "column_name").getD (.jstr "")) with
        | some col =>
          (enhanceMetricRef c10WitnessHeap 4 c10Dataset).1
            = heapSet c10WitnessHeap 4
                (.jdict (dset c10WitnessMetric "column" (buildColumnMetadata col)))
          ∧ heapGet ((enhanceMetricRef c10WitnessHeap 4 c10Dataset).1) 4
            = .jdict (dset c10WitnessMetric "column" (buildColumnMetadata col))
        | none => (enhanceMetricRef c10WitnessHeap 4 c10Dataset).1 = c10WitnessHeap)) :=
  enhance_metric_dict_in_place c10WitnessHeap 4 c10WitnessMetric
    [("column_name", .jstr "status")] c10Dataset rfl rfl rfl rfl

/-! ### C7: shared mutable query-context template -/

/-- Claim C7 (code bug): `generate_query_context` shallow-copies
`DEFAULT_QUERY_CONTEXT`, so its nested datasource dict and first query node
are mutated across calls: after one call the template's datasource id has
changed and its filters hold the call's temporal filter, and a second call
with identical inputs returns a different result than it would from the
pristine template — the module-level template is *not* left unchanged. -/
theorem default_query_context_template_mutated :
    dget initialQCDatasource "id" = some .jnull
    ∧ dget c7StateAfterFirst.datasource "id" = some (.jint 7)
    ∧ dget c7StateAfterFirst.q0 "filters" = some (.jlist [qcTemporalFilter (.jstr "d")])
    ∧ resultFilters (generateQueryContext c7StateAfterFirst c7Config c7Dataset2).2
        = .jlist [qcTemporalFilter (.jstr "d"), qcTemporalFilter (.jstr "d")]
    ∧ resultFilters (generateQueryContext initialQCShared c7Config c7Dataset2).2
        = .jlist [qcTemporalFilter (.jstr "d")]
    ∧ (generateQueryContext c7StateAfterFirst c7Config c7Dataset2).2
        ≠ (generateQueryContext initialQCShared c7Config c7Dataset2).2 := by
  refine ⟨rfl, rfl, rfl, rfl, rfl, fun hc => ?_⟩
  have h1 : resultFilters (generateQueryContext c7StateAfterFirst c7Config c7Dataset2).2
      = .jlist [qcTemporalFilter (.jstr "d"), qcTemporalFilter (.jstr "d")] := rfl
  have h2 : resultFilters (generateQueryContext initialQCShared c7Config c7Dataset2).2
      = .jlist [qcTemporalFilter (.jstr "d")] := rfl
  rw [hc, h2] at h1
  simp [qcTemporalFilter] at h1
